import Mathlib

/-!
Verification of the SuperSDR webhook-normalization engine.

The TypeScript sources are shallowly embedded: JSON-ish runtime values
become the inductive `JsVal` (with `undefined` for JavaScript's `undefined`),
JavaScript numbers become `JsNum` (an integer or NaN; the embedding is
integer-valued, which covers every value the normalization code computes),
and code that can throw runs in `Except String`.  Property access on
`undefined`/`null` throws, as in JavaScript; access on any other value is
total.  Each adapter (`MetaAdapter`, `EvolutionAdapter`, `ZApiAdapter`),
the shared `BaseWebhookAdapter` helpers, the helpers-module utilities and
the `AdapterRegistry` are translated function by function.
-/

/-- JavaScript numbers as the normalization code uses them: an integer or
NaN.  (The sources only ever multiply, compare and parse integers.) -/
inductive JsNum where
  | nan
  | int (i : Int)
deriving DecidableEq, Repr

/-- A JavaScript runtime value: the decoded webhook JSON plus `undefined`. -/
inductive JsVal where
  | undefined
  | null
  | bool (b : Bool)
  | num (n : JsNum)
  | str (s : String)
  | arr (elems : List JsVal)
  | obj (fields : List (String × JsVal))

mutual

/-- Structural equality test on `JsVal` (used for `===` against literals;
the sources never compare two objects with `===`). -/
def beqVal : JsVal → JsVal → Bool
  | .undefined, .undefined => true
  | .null, .null => true
  | .bool a, .bool b => a == b
  | .num a, .num b => a == b
  | .str a, .str b => a == b
  | .arr a, .arr b => beqValList a b
  | .obj a, .obj b => beqValFields a b
  | _, _ => false

def beqValList : List JsVal → List JsVal → Bool
  | [], [] => true
  | x :: xs, y :: ys => beqVal x y && beqValList xs ys
  | _, _ => false

def beqValFields : List (String × JsVal) → List (String × JsVal) → Bool
  | [], [] => true
  | (k, x) :: xs, (k', y) :: ys => k == k' && beqVal x y && beqValFields xs ys
  | _, _ => false

end

namespace JsVal

/-- JavaScript truthiness: `undefined`, `null`, `false`, `0`, `NaN` and
`""` are falsy, everything else truthy. -/
def truthy : JsVal → Bool
  | .undefined => false
  | .null => false
  | .bool b => b
  | .num .nan => false
  | .num (.int i) => i != 0
  | .str s => s != ""
  | .arr _ => true
  | .obj _ => true

/-- `typeof v`. -/
def typeofStr : JsVal → String
  | .undefined => "undefined"
  | .null => "object"
  | .bool _ => "boolean"
  | .num _ => "number"
  | .str _ => "string"
  | .arr _ => "object"
  | .obj _ => "object"

/-- `Array.isArray(v)`. -/
def isArrayJs : JsVal → Bool
  | .arr _ => true
  | _ => false

/-- The adapters' `isObject` type guard:
`typeof value === 'object' && value !== null && !Array.isArray(value)`. -/
def isObjectJs : JsVal → Bool
  | .obj _ => true
  | _ => false

end JsVal

/-- First-match lookup in an object's field list (JS objects cannot repeat
keys, so first match is the only match on real payloads). -/
def fieldLookup (k : String) : List (String × JsVal) → JsVal
  | [] => .undefined
  | (k', v) :: rest => if k' = k then v else fieldLookup k rest

/-- Property access `v.k` on a value that is not `undefined`/`null`: total in
JavaScript.  Strings and arrays expose `length`; other missing properties
read as `undefined`. -/
def propGet (v : JsVal) (k : String) : JsVal :=
  match v with
  | .obj fields => fieldLookup k fields
  | .str s => if k = "length" then .num (.int s.length) else .undefined
  | .arr xs => if k = "length" then .num (.int xs.length) else .undefined
  | _ => .undefined

/-- Index access `v[i]` on a value that is not `undefined`/`null`. -/
def idxGet (v : JsVal) (i : Nat) : JsVal :=
  match v with
  | .arr xs => (xs.get? i).getD .undefined
  | .str s => ((s.data.get? i).map fun c => .str (String.mk [c])).getD .undefined
  | .obj fields => fieldLookup (toString i) fields
  | _ => .undefined

/-- Optional chaining `v?.k`: `undefined` when the base is nullish. -/
def optProp (v : JsVal) (k : String) : JsVal :=
  match v with
  | .undefined => .undefined
  | .null => .undefined
  | _ => propGet v k

/-- Optional chaining `v?.[i]`. -/
def optIdx (v : JsVal) (i : Nat) : JsVal :=
  match v with
  | .undefined => .undefined
  | .null => .undefined
  | _ => idxGet v i

/-- Plain property access `v.k`: throws a TypeError when the base is
nullish, as in JavaScript. -/
def jsGet (v : JsVal) (k : String) : Except String JsVal :=
  match v with
  | .undefined => .error ("TypeError: cannot read properties of undefined (reading " ++ k ++ ")")
  | .null => .error ("TypeError: cannot read properties of null (reading " ++ k ++ ")")
  | _ => .ok (propGet v k)

/-- Plain index access `v[i]`: throws when the base is nullish. -/
def jsIdx (v : JsVal) (i : Nat) : Except String JsVal :=
  match v with
  | .undefined => .error "TypeError: cannot read properties of undefined"
  | .null => .error "TypeError: cannot read properties of null"
  | _ => .ok (idxGet v i)

/-- Sequencing of throwing computations (the `try { ... }` body). -/
def andThen (e : Except String JsVal) (f : JsVal → Except String α) : Except String α :=
  match e with
  | .error err => .error err
  | .ok v => f v

/-- `a || b`: the first operand when truthy, else the second. -/
def jsOr (a b : JsVal) : JsVal :=
  if a.truthy then a else b

/-- Strict equality `a === b` (NaN is not equal to itself). -/
def jsSEq (a b : JsVal) : Bool :=
  match a, b with
  | .num .nan, _ => false
  | _, .num .nan => false
  | a, b => beqVal a b

/-- Decimal digits of a character list folded into a natural number. -/
def digitsToNat (l : List Char) : Nat :=
  l.foldl (fun a c => a * 10 + (c.toNat - '0'.toNat)) 0

/-- ToString of a JavaScript number. -/
def numToString : JsNum → String
  | .nan => "NaN"
  | .int i => toString i

mutual

/-- JavaScript's ToString on the values the embedding covers.  Array
elements join with `,`, nullish elements rendering as the empty string. -/
def jsToString : JsVal → String
  | .undefined => "undefined"
  | .null => "null"
  | .bool b => if b then "true" else "false"
  | .num n => numToString n
  | .str s => s
  | .arr xs => String.intercalate "," (arrElemStrings xs)
  | .obj _ => "[object Object]"

def arrElemStrings : List JsVal → List String
  | [] => []
  | .undefined :: rest => "" :: arrElemStrings rest
  | .null :: rest => "" :: arrElemStrings rest
  | x :: rest => jsToString x :: arrElemStrings rest

end

/-- JavaScript whitespace for the purposes of numeric parsing. -/
def isJsSpace (c : Char) : Bool :=
  c = ' ' || c = '\t' || c = '\n' || c = '\r'

/-- ToNumber of a string (integer-valued model: optional sign and decimal
digits after trimming; the empty string is 0; anything else is NaN). -/
def strToNumber (s : String) : JsNum :=
  let l := (s.data.dropWhile isJsSpace).reverse.dropWhile isJsSpace |>.reverse
  match l with
  | [] => .int 0
  | '+' :: rest => if rest ≠ [] && rest.all Char.isDigit then .int (digitsToNat rest) else .nan
  | '-' :: rest => if rest ≠ [] && rest.all Char.isDigit then .int (-(digitsToNat rest : Int)) else .nan
  | l => if l.all Char.isDigit then .int (digitsToNat l) else .nan

/-- JavaScript's ToNumber on the values the embedding covers. -/
def toNumber : JsVal → JsNum
  | .undefined => .nan
  | .null => .int 0
  | .bool b => .int (if b then 1 else 0)
  | .num n => n
  | v => strToNumber (jsToString v)

/-- `parseInt(v)`: ToString, skip whitespace, optional sign, leading decimal
digits; NaN when no digit is found. -/
def parseIntJs (v : JsVal) : JsNum :=
  let l := (jsToString v).data.dropWhile isJsSpace
  match l with
  | '+' :: rest =>
      let ds := rest.takeWhile Char.isDigit
      if ds = [] then .nan else .int (digitsToNat ds)
  | '-' :: rest =>
      let ds := rest.takeWhile Char.isDigit
      if ds = [] then .nan else .int (-(digitsToNat ds : Int))
  | l =>
      let ds := l.takeWhile Char.isDigit
      if ds = [] then .nan else .int (digitsToNat ds)

/-- Multiplication of JavaScript numbers (NaN absorbs). -/
def mulNum : JsNum → JsNum → JsNum
  | .nan, _ => .nan
  | _, .nan => .nan
  | .int a, .int b => .int (a * b)

/-- Numeric `<` on JavaScript numbers: false when either side is NaN. -/
def ltNum : JsNum → JsNum → Bool
  | .nan, _ => false
  | _, .nan => false
  | .int a, .int b => a < b

/-- `v > 0` with numeric coercion, as in `array.length > 0`. -/
def jsGtZero (v : JsVal) : Bool :=
  ltNum (.int 0) (toNumber v)

/-! ## Phone-number canonicalization (BaseWebhookAdapter and utils/helpers) -/

/-- A character the WhatsApp-suffix regex class `[a-z.]` (flag `i`) accepts. -/
def isSuffixChar (c : Char) : Bool :=
  ('a' ≤ c && c ≤ 'z') || ('A' ≤ c && c ≤ 'Z') || c = '.'

/-- `phone.replace(/@[a-z.]+$/i, '')`: the regex can only match starting at
the last `@`, with at least one letter-or-dot character after it reaching
the end of the string. -/
def stripWaSuffix (l : List Char) : List Char :=
  match l.reverse.drop (l.reverse.takeWhile isSuffixChar).length with
  | '@' :: rest => if (l.reverse.takeWhile isSuffixChar).isEmpty then l else rest.reverse
  | _ => l

/-- `normalized.replace(/[^\d]/g, '')`. -/
def keepDigits (l : List Char) : List Char :=
  l.filter Char.isDigit

/-- `normalized.replace(/[^\d+]/g, '')`. -/
def keepDigitsPlus (l : List Char) : List Char :=
  l.filter fun c => c.isDigit || c = '+'

/-- `normalized.replace(/^\+/, '')`. -/
def dropLeadingPlus : List Char → List Char
  | '+' :: rest => rest
  | l => l

namespace BaseWebhookAdapter

/-- `BaseWebhookAdapter.normalizePhoneNumber` on an actual string: strip the
WhatsApp suffix, keep digits and `+`, drop one leading `+`. -/
def normalizePhoneNumber (s : String) : String :=
  if s = "" then ""
  else String.mk (dropLeadingPlus (keepDigitsPlus (stripWaSuffix s.data)))

/-- `BaseWebhookAdapter.normalizePhoneNumber` as the adapters call it, on an
arbitrary runtime value: a falsy argument returns `''`; on a truthy
non-string, `phone.replace` is not a function and throws. -/
def normalizePhoneJs (v : JsVal) : Except String String :=
  if !v.truthy then .ok ""
  else
    match v with
    | .str s => .ok (normalizePhoneNumber s)
    | _ => .error "TypeError: phone.replace is not a function"

/-- One base-36 digit as `Number.prototype.toString(36)` renders it. -/
def base36Char (n : Nat) : Char :=
  if n < 10 then Char.ofNat ('0'.toNat + n) else Char.ofNat ('a'.toNat + n - 10)

/-- Base-36 digits of a natural number, most significant first. -/
def base36Digits (n : Nat) : List Char :=
  if _h : n < 36 then [base36Char n]
  else base36Digits (n / 36) ++ [base36Char (n % 36)]
decreasing_by
  exact Nat.div_lt_self (by omega) (by omega)

/-- `BaseWebhookAdapter.generateId`: `msg_` + `Date.now().toString(36)` +
`_` + the random component.  The time and the random part are the two
environment-supplied inputs. -/
def generateId (now : Nat) (rand : String) : String :=
  "msg_" ++ String.mk (base36Digits now) ++ "_" ++ rand

end BaseWebhookAdapter

namespace helpers

/-- `normalizePhoneNumber` from `utils/helpers.ts`: strip the WhatsApp
suffix, keep only digits, then prepend `55` to an 11-digit number starting
with `11`. -/
def normalizePhoneNumber (s : String) : String :=
  if s = "" then ""
  else
    let normalized := keepDigits (stripWaSuffix s.data)
    if normalized.length = 11 && normalized.take 2 = ['1', '1'] then
      String.mk ('5' :: '5' :: normalized)
    else
      String.mk normalized

end helpers

/-! ## The normalized message model (types/index.ts) -/

/-- `NormalizedContact`.  (`from`/`to` below become `fromContact`/`toContact`
because `from` is a Lean keyword.) -/
structure NormalizedContact where
  phoneNumber : String
  name : JsVal
  profilePicUrl : JsVal := .undefined

/-- The `location` record of `NormalizedMessageContent`. -/
structure NormalizedLocation where
  latitude : JsVal
  longitude : JsVal
  name : JsVal := .undefined
  address : JsVal := .undefined

/-- `NormalizedMessageContent`: a `type` tag plus the fields the producing
branch filled in (`none` = the key is absent from the literal). -/
structure NormalizedMessageContent where
  type : String
  text : Option JsVal := none
  caption : Option JsVal := none
  mediaUrl : Option JsVal := none
  mimeType : Option JsVal := none
  fileName : Option JsVal := none
  location : Option NormalizedLocation := none

/-- `NormalizedMessage`.  Dynamic payload-derived fields stay `JsVal`;
fields the adapters always fill with literals are `String`. -/
structure NormalizedMessage where
  id : String
  externalId : JsVal
  provider : String
  instanceId : JsVal
  timestamp : JsVal
  direction : String
  status : String
  fromContact : NormalizedContact
  toContact : NormalizedContact
  content : NormalizedMessageContent
  rawPayload : JsVal
  metadata : JsVal

/-- `ErrorCode`. -/
inductive ErrorCode where
  | INVALID_PAYLOAD
  | UNKNOWN_PROVIDER
  | MISSING_REQUIRED_FIELD
  | PARSE_ERROR
  | UNSUPPORTED_MESSAGE_TYPE
  | PROCESSING_ERROR
deriving DecidableEq, Repr

/-- `NormalizationResult`: `createSuccess` / `createError`. -/
inductive NormalizationResult where
  | success (message : NormalizedMessage)
  | failure (code : ErrorCode) (message : String) (details : Option JsVal)

namespace NormalizationResult

/-- The `success` flag of a result. -/
def isSuccess : NormalizationResult → Bool
  | .success _ => true
  | .failure _ _ _ => false

/-- The error code of a failure result. -/
def errorCode : NormalizationResult → Option ErrorCode
  | .success _ => none
  | .failure c _ _ => some c

/-- The normalized message of a success result. -/
def messageOf : NormalizationResult → Option NormalizedMessage
  | .success m => some m
  | .failure _ _ _ => none

end NormalizationResult

/-! ## MetaAdapter (src/adapters/MetaAdapter.ts) -/

namespace MetaAdapter

/-- The provider tag. -/
def provider : String := "meta"

/-- `MetaAdapter.canHandle`: object with
`object === 'whatsapp_business_account'` and a non-empty `entry` array. -/
def canHandle (p : JsVal) : Bool :=
  if !p.isObjectJs then false
  else
    jsSEq (propGet p "object") (.str "whatsapp_business_account") &&
    (propGet p "entry").isArrayJs &&
    jsGtZero (propGet (propGet p "entry") "length")

/-- `MetaAdapter.validate`: needs `entry[0].changes[0].value` to carry
messages or statuses (all nested access optional-chained, so never throws). -/
def validate (p : JsVal) : Bool :=
  if !canHandle p then false
  else
    let entry := idxGet (propGet p "entry") 0
    let changes := optIdx (optProp entry "changes") 0
    let value := optProp changes "value"
    (jsOr (optProp (optProp value "messages") "length")
          (optProp (optProp value "statuses") "length")).truthy

/-- `MetaAdapter.mapStatus`: the adapter-local status table, defaulting to
`pending`. -/
def mapStatus (v : JsVal) : String :=
  let s := jsToString v
  if s = "sent" then "sent"
  else if s = "delivered" then "delivered"
  else if s = "read" then "read"
  else if s = "failed" then "failed"
  else "pending"

/-- `MetaAdapter.extractContent`: switch on `msg.type`. -/
def extractContent (msg : JsVal) : Except String NormalizedMessageContent :=
  andThen (jsGet msg "type") fun t =>
  if jsSEq t (.str "text") then
    andThen (jsGet msg "text") fun mt =>
    .ok { type := "text", text := some (jsOr (optProp mt "body") (.str "")) }
  else if jsSEq t (.str "image") then
    andThen (jsGet msg "image") fun img =>
    .ok { type := "image", mediaUrl := some (optProp img "id"),
          mimeType := some (optProp img "mime_type"),
          caption := some (optProp img "caption") }
  else if jsSEq t (.str "audio") then
    andThen (jsGet msg "audio") fun aud =>
    .ok { type := "audio", mediaUrl := some (optProp aud "id"),
          mimeType := some (optProp aud "mime_type") }
  else if jsSEq t (.str "video") then
    andThen (jsGet msg "video") fun vid =>
    .ok { type := "video", mediaUrl := some (optProp vid "id"),
          mimeType := some (optProp vid "mime_type"),
          caption := some (optProp vid "caption") }
  else if jsSEq t (.str "document") then
    andThen (jsGet msg "document") fun doc =>
    .ok { type := "document", mediaUrl := some (optProp doc "id"),
          mimeType := some (optProp doc "mime_type"),
          fileName := some (optProp doc "filename"),
          caption := some (optProp doc "caption") }
  else if jsSEq t (.str "location") then
    andThen (jsGet msg "location") fun loc =>
    .ok { type := "location",
          location := some { latitude := jsOr (optProp loc "latitude") (.num (.int 0)),
                             longitude := jsOr (optProp loc "longitude") (.num (.int 0)),
                             name := optProp loc "name",
                             address := optProp loc "address" } }
  else
    .ok { type := "unknown", text := some (.str ("Tipo não suportado: " ++ jsToString t)) }

/-- The `try { ... }` body of `MetaAdapter.normalize`: every plain property
access that JavaScript would throw on runs through `jsGet`/`jsIdx`, in
source evaluation order. -/
def extract (now : Nat) (rand : String) (p : JsVal) : Except String NormalizationResult :=
  andThen (jsGet p "entry") fun pentry =>
  andThen (jsIdx pentry 0) fun entry =>
  andThen (jsGet entry "changes") fun echanges =>
  andThen (jsIdx echanges 0) fun changes =>
  andThen (jsGet changes "value") fun value =>
  andThen (jsGet value "metadata") fun metadata =>
  andThen (jsGet value "messages") fun messages =>
  if messages.truthy && jsGtZero (propGet messages "length") then
    andThen (jsIdx messages 0) fun msg =>
    let contact := optIdx (propGet value "contacts") 0
    andThen (jsGet msg "id") fun externalId =>
    andThen (jsGet metadata "phone_number_id") fun instanceId =>
    andThen (jsGet msg "timestamp") fun msgTs =>
    andThen (jsGet msg "from") fun msgFrom =>
    match BaseWebhookAdapter.normalizePhoneJs msgFrom with
    | .error e => .error e
    | .ok fromPhone =>
    andThen (jsGet metadata "display_phone_number") fun dpn =>
    match BaseWebhookAdapter.normalizePhoneJs dpn with
    | .error e => .error e
    | .ok toPhone =>
    match extractContent msg with
    | .error e => .error e
    | .ok content =>
    andThen (jsGet entry "id") fun entryId =>
    andThen (jsGet metadata "phone_number_id") fun phoneNumberId =>
    .ok (.success
      { id := BaseWebhookAdapter.generateId now rand
        externalId := externalId
        provider := provider
        instanceId := instanceId
        timestamp := .num (mulNum (parseIntJs msgTs) (.int 1000))
        direction := "inbound"
        status := "received"
        fromContact :=
          { phoneNumber := fromPhone
            name := jsOr (optProp (optProp contact "profile") "name") .null
            profilePicUrl := .undefined }
        toContact := { phoneNumber := toPhone, name := .null }
        content := content
        rawPayload := p
        metadata := .obj [("businessAccountId", entryId), ("phoneNumberId", phoneNumberId)] })
  else
    andThen (jsGet value "statuses") fun statuses =>
    if statuses.truthy && jsGtZero (propGet statuses "length") then
      andThen (jsIdx statuses 0) fun st =>
      andThen (jsGet st "id") fun externalId =>
      andThen (jsGet metadata "phone_number_id") fun instanceId =>
      andThen (jsGet st "timestamp") fun stTs =>
      andThen (jsGet st "status") fun stStatus =>
      andThen (jsGet metadata "display_phone_number") fun dpn =>
      match BaseWebhookAdapter.normalizePhoneJs dpn with
      | .error e => .error e
      | .ok fromPhone =>
      andThen (jsGet st "recipient_id") fun recip =>
      match BaseWebhookAdapter.normalizePhoneJs recip with
      | .error e => .error e
      | .ok toPhone =>
      andThen (jsGet st "status") fun origStatus =>
      .ok (.success
        { id := BaseWebhookAdapter.generateId now rand
          externalId := externalId
          provider := provider
          instanceId := instanceId
          timestamp := .num (mulNum (parseIntJs stTs) (.int 1000))
          direction := "outbound"
          status := mapStatus stStatus
          fromContact := { phoneNumber := fromPhone, name := .null }
          toContact := { phoneNumber := toPhone, name := .null }
          content := { type := "unknown" }
          rawPayload := p
          metadata := .obj [("isStatusUpdate", .bool true), ("originalStatus", origStatus)] })
    else
      .ok (.failure .PROCESSING_ERROR "Não foi possível extrair mensagem do payload" none)

/-- `MetaAdapter.normalize`: the staged contract around `extract`. -/
def normalize (now : Nat) (rand : String) (p : JsVal) : NormalizationResult :=
  if !canHandle p then
    .failure .INVALID_PAYLOAD "Payload não é um webhook válido da Meta Cloud API" none
  else if !validate p then
    .failure .MISSING_REQUIRED_FIELD "Payload da Meta não contém mensagens ou status updates" none
  else
    match extract now rand p with
    | .ok r => r
    | .error e => .failure .PARSE_ERROR "Erro ao processar payload da Meta" (some (.str e))

end MetaAdapter

/-! ## EvolutionAdapter (src/adapters/EvolutionAdapter.ts) -/

namespace EvolutionAdapter

/-- The provider tag. -/
def provider : String := "evolution"

/-- `EvolutionAdapter.canHandle`: string `event`, string `instance`, object
`data` with object `data.key`. -/
def canHandle (p : JsVal) : Bool :=
  if !p.isObjectJs then false
  else
    (propGet p "event").typeofStr == "string" &&
    (propGet p "instance").typeofStr == "string" &&
    (propGet p "data").isObjectJs &&
    (propGet (propGet p "data") "key").isObjectJs

/-- `EvolutionAdapter.validate`: truthy `data.key.remoteJid` and
`data.key.id`, and `data.messageTimestamp` not `undefined`. -/
def validate (p : JsVal) : Bool :=
  if !canHandle p then false
  else
    (optProp (optProp (propGet p "data") "key") "remoteJid").truthy &&
    (optProp (optProp (propGet p "data") "key") "id").truthy &&
    !(jsSEq (optProp (propGet p "data") "messageTimestamp") .undefined)

/-- `EvolutionAdapter.isMessageEvent`. -/
def isMessageEvent (v : JsVal) : Bool :=
  jsSEq v (.str "messages.upsert") || jsSEq v (.str "messages.update") ||
  jsSEq v (.str "message.ack") || jsSEq v (.str "send.message")

/-- `EvolutionAdapter.normalizeTimestamp`: below 10,000,000,000 is treated
as seconds and multiplied by 1000, otherwise passed through unchanged. -/
def normalizeTimestamp (v : JsVal) : JsVal :=
  if ltNum (toNumber v) (.int 10000000000) then .num (mulNum (toNumber v) (.int 1000))
  else v

/-- `EvolutionAdapter.mapMessageType`. -/
def mapMessageType (v : JsVal) : String :=
  let s := jsToString v
  if s = "conversation" then "text"
  else if s = "extendedTextMessage" then "text"
  else if s = "imageMessage" then "image"
  else if s = "audioMessage" then "audio"
  else if s = "videoMessage" then "video"
  else if s = "documentMessage" then "document"
  else if s = "locationMessage" then "location"
  else if s = "contactMessage" then "contact"
  else if s = "stickerMessage" then "sticker"
  else if s = "reactionMessage" then "reaction"
  else "unknown"

/-- `EvolutionAdapter.extractContent`: probe the message-variant fields in
source order (never throws: every access is on a truthiness-guarded base). -/
def extractContent (message messageType : JsVal) : NormalizedMessageContent :=
  if !message.truthy then { type := "unknown" }
  else if (propGet message "conversation").truthy then
    { type := "text", text := some (propGet message "conversation") }
  else if (propGet message "extendedTextMessage").truthy then
    { type := "text",
      text := some (jsOr (propGet (propGet message "extendedTextMessage") "text") (.str "")) }
  else if (propGet message "imageMessage").truthy then
    { type := "image", mediaUrl := some (propGet (propGet message "imageMessage") "url"),
      mimeType := some (propGet (propGet message "imageMessage") "mimetype"),
      caption := some (propGet (propGet message "imageMessage") "caption") }
  else if (propGet message "audioMessage").truthy then
    { type := "audio", mediaUrl := some (propGet (propGet message "audioMessage") "url"),
      mimeType := some (propGet (propGet message "audioMessage") "mimetype") }
  else if (propGet message "videoMessage").truthy then
    { type := "video", mediaUrl := some (propGet (propGet message "videoMessage") "url"),
      mimeType := some (propGet (propGet message "videoMessage") "mimetype"),
      caption := some (propGet (propGet message "videoMessage") "caption") }
  else if (propGet message "documentMessage").truthy then
    { type := "document", mediaUrl := some (propGet (propGet message "documentMessage") "url"),
      mimeType := some (propGet (propGet message "documentMessage") "mimetype"),
      fileName := some (propGet (propGet message "documentMessage") "fileName"),
      caption := some (propGet (propGet message "documentMessage") "caption") }
  else if (propGet message "locationMessage").truthy then
    { type := "location",
      location := some
        { latitude := propGet (propGet message "locationMessage") "degreesLatitude"
          longitude := propGet (propGet message "locationMessage") "degreesLongitude"
          name := propGet (propGet message "locationMessage") "name"
          address := propGet (propGet message "locationMessage") "address" } }
  else
    { type := mapMessageType messageType,
      text := some (.str ("Conteúdo do tipo: " ++ jsToString messageType)) }

/-- The `try { ... }` body of `EvolutionAdapter.normalize`. -/
def extract (now : Nat) (rand : String) (p : JsVal) : Except String NormalizationResult :=
  andThen (jsGet p "event") fun event =>
  if !isMessageEvent event then
    .ok (.failure .UNSUPPORTED_MESSAGE_TYPE
      ("Evento não suportado: " ++ jsToString event ++ ". Apenas eventos de mensagem são processados.") none)
  else
  andThen (jsGet p "data") fun data =>
  andThen (jsGet p "instance") fun pInstance =>
  andThen (jsGet p "destination") fun destination =>
  andThen (jsGet data "key") fun key =>
  andThen (jsGet data "pushName") fun pushName =>
  andThen (jsGet data "message") fun message =>
  andThen (jsGet data "messageType") fun messageType =>
  andThen (jsGet data "messageTimestamp") fun messageTimestamp =>
  andThen (jsGet key "remoteJid") fun remoteJid =>
  match BaseWebhookAdapter.normalizePhoneJs remoteJid with
  | .error e => .error e
  | .ok fromPhone =>
  match BaseWebhookAdapter.normalizePhoneJs (jsOr destination (.str "")) with
  | .error e => .error e
  | .ok toPhone =>
  andThen (jsGet key "id") fun keyId =>
  andThen (jsGet key "fromMe") fun fromMe =>
  .ok (.success
    { id := BaseWebhookAdapter.generateId now rand
      externalId := keyId
      provider := provider
      instanceId := pInstance
      timestamp := normalizeTimestamp messageTimestamp
      direction := if fromMe.truthy then "outbound" else "inbound"
      status := if fromMe.truthy then "sent" else "received"
      fromContact :=
        { phoneNumber := if fromMe.truthy then toPhone else fromPhone
          name := if fromMe.truthy then .null else jsOr pushName .null
          profilePicUrl := .undefined }
      toContact :=
        { phoneNumber := if fromMe.truthy then fromPhone else toPhone
          name := if fromMe.truthy then jsOr pushName .null else .null }
      content := extractContent message messageType
      rawPayload := p
      metadata := .obj [("event", propGet p "event"),
                        ("serverUrl", propGet p "server_url"),
                        ("dateTime", propGet p "date_time")] })

/-- `EvolutionAdapter.normalize`: the staged contract around `extract`. -/
def normalize (now : Nat) (rand : String) (p : JsVal) : NormalizationResult :=
  if !canHandle p then
    .failure .INVALID_PAYLOAD "Payload não é um webhook válido da Evolution API" none
  else if !validate p then
    .failure .MISSING_REQUIRED_FIELD
      "Payload da Evolution não contém campos obrigatórios (remoteJid, id, messageTimestamp)" none
  else
    match extract now rand p with
    | .ok r => r
    | .error e => .failure .PARSE_ERROR "Erro ao processar payload da Evolution API" (some (.str e))

end EvolutionAdapter

/-! ## ZApiAdapter (src/adapters/ZApiAdapter.ts) -/

namespace ZApiAdapter

/-- The provider tag. -/
def provider : String := "z-api"

/-- `ZApiAdapter.canHandle`: string `instanceId`, `messageId`, `phone` and
numeric `momment`. -/
def canHandle (p : JsVal) : Bool :=
  if !p.isObjectJs then false
  else
    (propGet p "instanceId").typeofStr == "string" &&
    (propGet p "messageId").typeofStr == "string" &&
    (propGet p "phone").typeofStr == "string" &&
    (propGet p "momment").typeofStr == "number"

/-- `ZApiAdapter.validate`: all four marker fields truthy. -/
def validate (p : JsVal) : Bool :=
  if !canHandle p then false
  else
    (propGet p "instanceId").truthy &&
    (propGet p "messageId").truthy &&
    (propGet p "phone").truthy &&
    (propGet p "momment").truthy

/-- `ZApiAdapter.mapStatus`: inbound is always `received`; outbound looks
the upper-cased status up in the table (`zapiStatus?.toUpperCase()` throws
on a truthy non-string). -/
def mapStatus (zapiStatus : JsVal) (isOutbound : Bool) : Except String String :=
  if !isOutbound then .ok "received"
  else
    match zapiStatus with
    | .undefined => .ok "pending"
    | .null => .ok "pending"
    | .str s =>
        let u := s.toUpper
        .ok (if u = "RECEIVED" then "received"
          else if u = "SENT" then "sent"
          else if u = "DELIVERED" then "delivered"
          else if u = "READ" then "read"
          else if u = "PLAYED" then "read"
          else if u = "FAILED" then "failed"
          else if u = "PENDING" then "pending"
          else "pending")
    | _ => .error "TypeError: zapiStatus.toUpperCase is not a function"

/-- `ZApiAdapter.extractContent`: probe the typed sub-objects in source
order (total: `p` is a non-nullish payload whenever it is called). -/
def extractContent (p : JsVal) : NormalizedMessageContent :=
  if (optProp (propGet p "text") "message").truthy then
    { type := "text", text := some (propGet (propGet p "text") "message") }
  else if (propGet p "image").truthy then
    { type := "image", mediaUrl := some (propGet (propGet p "image") "imageUrl"),
      mimeType := some (propGet (propGet p "image") "mimeType"),
      caption := some (propGet (propGet p "image") "caption") }
  else if (propGet p "audio").truthy then
    { type := "audio", mediaUrl := some (propGet (propGet p "audio") "audioUrl"),
      mimeType := some (propGet (propGet p "audio") "mimeType") }
  else if (propGet p "video").truthy then
    { type := "video", mediaUrl := some (propGet (propGet p "video") "videoUrl"),
      mimeType := some (propGet (propGet p "video") "mimeType"),
      caption := some (propGet (propGet p "video") "caption") }
  else if (propGet p "document").truthy then
    { type := "document", mediaUrl := some (propGet (propGet p "document") "documentUrl"),
      mimeType := some (propGet (propGet p "document") "mimeType"),
      fileName := some (propGet (propGet p "document") "fileName"),
      caption := some (propGet (propGet p "document") "caption") }
  else if (propGet p "location").truthy then
    { type := "location",
      location := some
        { latitude := propGet (propGet p "location") "latitude"
          longitude := propGet (propGet p "location") "longitude"
          name := propGet (propGet p "location") "name"
          address := propGet (propGet p "location") "address" } }
  else
    { type := "unknown", text := some (.str ("Tipo de mensagem: " ++ jsToString (propGet p "type"))) }

/-- The `try { ... }` body of `ZApiAdapter.normalize`. -/
def extract (now : Nat) (rand : String) (p : JsVal) : Except String NormalizationResult :=
  andThen (jsGet p "fromMe") fun fromMe =>
  let isOutbound := jsSEq fromMe (.bool true)
  andThen (jsGet p "phone") fun phone =>
  match BaseWebhookAdapter.normalizePhoneJs phone with
  | .error e => .error e
  | .ok contactPhone =>
  andThen (jsGet p "messageId") fun messageId =>
  andThen (jsGet p "instanceId") fun instanceId =>
  andThen (jsGet p "momment") fun momment =>
  andThen (jsGet p "status") fun status =>
  match mapStatus status isOutbound with
  | .error e => .error e
  | .ok mappedStatus =>
  .ok (.success
    { id := BaseWebhookAdapter.generateId now rand
      externalId := messageId
      provider := provider
      instanceId := instanceId
      timestamp := momment
      direction := if isOutbound then "outbound" else "inbound"
      status := mappedStatus
      fromContact :=
        { phoneNumber := if isOutbound then "" else contactPhone
          name := if isOutbound then .null
                  else jsOr (jsOr (propGet p "senderName") (propGet p "chatName")) .null
          profilePicUrl := jsOr (propGet p "senderPhoto") (propGet p "photo") }
      toContact :=
        { phoneNumber := if isOutbound then contactPhone else ""
          name := if isOutbound then jsOr (propGet p "chatName") .null else .null }
      content := extractContent p
      rawPayload := p
      metadata := .obj [("type", propGet p "type"),
                        ("broadcast", propGet p "broadcast"),
                        ("participantPhone", propGet p "participantPhone")] })

/-- `ZApiAdapter.normalize`: the staged contract around `extract`. -/
def normalize (now : Nat) (rand : String) (p : JsVal) : NormalizationResult :=
  if !canHandle p then
    .failure .INVALID_PAYLOAD "Payload não é um webhook válido da Z-API" none
  else if !validate p then
    .failure .MISSING_REQUIRED_FIELD "Payload da Z-API não contém campos obrigatórios" none
  else
    match extract now rand p with
    | .ok r => r
    | .error e => .failure .PARSE_ERROR "Erro ao processar payload da Z-API" (some (.str e))

end ZApiAdapter

/-! ## AdapterRegistry (src/core/AdapterRegistry.ts) -/

/-- A registered adapter as the registry sees it: a provider tag and the
two registry-called operations.  Both are possibly-throwing, because a
misbehaving custom adapter may throw from either `canHandle` or
`normalize`; the built-ins never throw from either. -/
structure Adapter where
  provider : String
  canHandle : JsVal → Except String Bool
  normalizeFn : JsVal → Except String NormalizationResult

/-- The built-in Meta adapter, with the id-generation inputs fixed. -/
def metaAdapter (now : Nat) (rand : String) : Adapter :=
  { provider := MetaAdapter.provider
    canHandle := fun p => .ok (MetaAdapter.canHandle p)
    normalizeFn := fun p => .ok (MetaAdapter.normalize now rand p) }

/-- The built-in Evolution adapter. -/
def evolutionAdapter (now : Nat) (rand : String) : Adapter :=
  { provider := EvolutionAdapter.provider
    canHandle := fun p => .ok (EvolutionAdapter.canHandle p)
    normalizeFn := fun p => .ok (EvolutionAdapter.normalize now rand p) }

/-- The built-in Z-API adapter. -/
def zapiAdapter (now : Nat) (rand : String) : Adapter :=
  { provider := ZApiAdapter.provider
    canHandle := fun p => .ok (ZApiAdapter.canHandle p)
    normalizeFn := fun p => .ok (ZApiAdapter.normalize now rand p) }

/-- `registerDefaultAdapters`: the registration table after construction,
in registration order. -/
def defaultAdapters (now : Nat) (rand : String) : List Adapter :=
  [metaAdapter now rand, evolutionAdapter now rand, zapiAdapter now rand]

namespace AdapterRegistry

/-- `AdapterRegistry.findAdapter`: first registered adapter whose
`canHandle` accepts the payload.  The `canHandle` probes run bare (no
try/catch anywhere in `findAdapter`), so an exception from a probed
adapter propagates to the caller. -/
def findAdapter (adapters : List Adapter) (p : JsVal) : Except String (Option Adapter) :=
  match adapters with
  | [] => .ok none
  | a :: rest =>
      match a.canHandle p with
      | .error e => .error e
      | .ok true => .ok (some a)
      | .ok false => findAdapter rest p

/-- `AdapterRegistry.getRegisteredProviders`. -/
def getRegisteredProviders (adapters : List Adapter) : List String :=
  adapters.map fun a => a.provider

/-- `AdapterRegistry.getPayloadKeys`: `Object.keys` for objects (arrays
expose their index strings), `[]` otherwise. -/
def getPayloadKeys (p : JsVal) : List String :=
  match p with
  | .obj fields => fields.map fun f => f.1
  | .arr xs => (List.range xs.length).map toString
  | _ => []

/-- `payload === null || payload === undefined`. -/
def isAbsent : JsVal → Bool
  | .null => true
  | .undefined => true
  | _ => false

/-- `AdapterRegistry.normalize`: null guard, detection, dispatch, and the
`PROCESSING_ERROR` wrapper around an adapter exception.  Only the
`adapter.normalize(payload)` call sits inside the try/catch; the
`findAdapter` detection runs before it, unprotected, so an exception
thrown by a registered adapter's `canHandle` escapes this method
(hence the `Except` result type). -/
def normalize (adapters : List Adapter) (p : JsVal) : Except String NormalizationResult :=
  if isAbsent p then
    .ok (.failure .INVALID_PAYLOAD "Payload não pode ser null ou undefined" none)
  else
    match findAdapter adapters p with
    | .error e => .error e
    | .ok none =>
        .ok (.failure .UNKNOWN_PROVIDER "Nenhum adapter registrado pode processar este payload"
          (some (.obj
            [("registeredProviders", .arr ((getRegisteredProviders adapters).map .str)),
             ("payloadType", .str p.typeofStr),
             ("payloadKeys", .arr ((getPayloadKeys p).map .str))])))
    | .ok (some a) =>
        match a.normalizeFn p with
        | .ok r => .ok r
        | .error e =>
            .ok (.failure .PROCESSING_ERROR
              ("Erro ao processar payload com adapter " ++ a.provider) (some (.str e)))

end AdapterRegistry

/-! ## Canonical example payloads (spec §8 and tests/adapters.test.ts) -/

/-- The Meta example payload of the spec. -/
def metaExamplePayload : JsVal :=
  .obj [("object", .str "whatsapp_business_account"),
        ("entry", .arr [.obj [("changes", .arr [.obj [("value", .obj
          [("metadata", .obj [("display_phone_number", .str "5511999999999"),
                              ("phone_number_id", .str "PHONE_NUMBER_ID")]),
           ("contacts", .arr [.obj [("profile", .obj [("name", .str "João Silva")]),
                                    ("wa_id", .str "5511988888888")]]),
           ("messages", .arr [.obj [("from", .str "5511988888888"),
                                    ("id", .str "wamid.ABC"),
                                    ("timestamp", .str "1677234567"),
                                    ("type", .str "text"),
                                    ("text", .obj [("body", .str "Olá")])]])])]])]])]

/-- The Evolution example payload of the test suite. -/
def evolutionExamplePayload : JsVal :=
  .obj [("event", .str "messages.upsert"),
        ("instance", .str "minha-instancia"),
        ("data", .obj
          [("key", .obj [("remoteJid", .str "5511988888888@s.whatsapp.net"),
                         ("fromMe", .bool false),
                         ("id", .str "3EB0B430B6F8C1D073A0")]),
           ("pushName", .str "João Silva"),
           ("message", .obj [("conversation", .str "Olá, gostaria de saber mais sobre o produto")]),
           ("messageType", .str "conversation"),
           ("messageTimestamp", .num (.int 1677234567))]),
        ("destination", .str "5511999999999@s.whatsapp.net"),
        ("date_time", .str "2024-01-15T10:30:00.000Z"),
        ("sender", .str "5511988888888@s.whatsapp.net"),
        ("server_url", .str "https://sua-evolution-api.com"),
        ("apikey", .str "sua-api-key")]

/-- The Z-API example payload of the test suite. -/
def zapiExamplePayload : JsVal :=
  .obj [("instanceId", .str "SUA_INSTANCE_ID"),
        ("messageId", .str "3EB0B430B6F8C1D073A0"),
        ("phone", .str "5511988888888"),
        ("fromMe", .bool false),
        ("momment", .num (.int 1677234567000)),
        ("status", .str "RECEIVED"),
        ("chatName", .str "João Silva"),
        ("senderPhoto", .str "https://pps.whatsapp.net/..."),
        ("senderName", .str "João Silva"),
        ("participantPhone", .null),
        ("photo", .str "https://pps.whatsapp.net/..."),
        ("broadcast", .bool false),
        ("type", .str "ReceivedCallback"),
        ("text", .obj [("message", .str "Olá, gostaria de saber mais sobre o produto")])]

/-! ## Payloads and helper definitions used to state the claims -/

/-- A structurally valid Meta payload whose message carries an empty
provider id and the seconds value `"0"`. -/
def metaZeroTimestampPayload : JsVal :=
  .obj [("object", .str "whatsapp_business_account"),
        ("entry", .arr [.obj [("changes", .arr [.obj [("value", .obj
          [("metadata", .obj [("display_phone_number", .str "5511999999999"),
                              ("phone_number_id", .str "PHONE_NUMBER_ID")]),
           ("messages", .arr [.obj [("from", .str "5511988888888"),
                                    ("id", .str ""),
                                    ("timestamp", .str "0"),
                                    ("type", .str "text"),
                                    ("text", .obj [("body", .str "x")])]])])]])]])]

/-- A Meta-shaped payload with neither `messages` nor `statuses`. -/
def metaNoMessagesPayload : JsVal :=
  .obj [("object", .str "whatsapp_business_account"),
        ("entry", .arr [.obj [("changes", .arr [.obj [("value", .obj
          [("metadata", .obj [("phone_number_id", .str "P")])])]])]])]

/-- A Meta payload that passes `validate` but has no `metadata` object, so
field extraction dereferences `undefined` and throws. -/
def metaNoMetadataPayload : JsVal :=
  .obj [("object", .str "whatsapp_business_account"),
        ("entry", .arr [.obj [("changes", .arr [.obj [("value", .obj
          [("messages", .arr [.obj [("id", .str "x"), ("timestamp", .str "1"),
                                    ("type", .str "text"), ("from", .str "1")]])])]])]])]

/-- An Evolution payload whose `remoteJid` is a truthy number, so
`phone.replace` is not a function and extraction throws. -/
def evoBadJidPayload : JsVal :=
  .obj [("event", .str "messages.upsert"), ("instance", .str "i"),
        ("data", .obj [("key", .obj [("remoteJid", .num (.int 5)), ("id", .str "k")]),
                       ("messageTimestamp", .num (.int 3))])]

/-- A Z-API payload with `fromMe: true` and a numeric `status`, so
`status.toUpperCase` is not a function and extraction throws. -/
def zapiBadStatusPayload : JsVal :=
  .obj [("instanceId", .str "i"), ("messageId", .str "m"), ("phone", .str "5"),
        ("momment", .num (.int 9)), ("fromMe", .bool true), ("status", .num (.int 7))]

/-- The spec's unrecognized payload `{foo:"bar"}`. -/
def fooBarPayload : JsVal := .obj [("foo", .str "bar")]

/-- A misbehaving custom adapter whose `normalize` throws on every payload. -/
def throwingAdapter : Adapter :=
  { provider := "bad", canHandle := fun _ => .ok true, normalizeFn := fun _ => .error "boom" }

/-- A misbehaving custom adapter whose `canHandle` itself throws, so the
registry's unprotected detection loop lets the exception escape. -/
def detectThrowingAdapter : Adapter :=
  { provider := "bad-detect", canHandle := fun _ => .error "detect-boom",
    normalizeFn := fun _ => .error "boom" }

/-- The invariant of claim C1 on one normalization result, as a checker:
a success must carry a non-empty `id`, a non-empty string `externalId`, a
provider other than `unknown`, a strictly positive numeric timestamp, and
an `inbound`/`outbound` direction. -/
def c1InvariantCheck (r : NormalizationResult) : Bool :=
  match r with
  | .success m =>
      (m.id != "") &&
      (match m.externalId with | .str s => s != "" | _ => false) &&
      (m.provider != "unknown") &&
      (match m.timestamp with | .num (.int i) => decide (0 < i) | _ => false) &&
      (m.direction == "inbound" || m.direction == "outbound")
  | .failure _ _ _ => true

/-- Reader: `entry[0].changes[0].value` of a Meta payload, fully
optional-chained. -/
def metaValueOf (p : JsVal) : JsVal :=
  optProp (optIdx (optProp (optIdx (optProp p "entry") 0) "changes") 0) "value"

/-- Reader: whether `MetaAdapter.normalize` takes the `messages` branch
(`value.messages` truthy with positive `length`). -/
def metaUsesMessages (p : JsVal) : Bool :=
  (optProp (metaValueOf p) "messages").truthy &&
  jsGtZero (optProp (optProp (metaValueOf p) "messages") "length")

/-- Reader: `value.messages[0].timestamp` of a Meta payload. -/
def metaFirstMessageTs (p : JsVal) : JsVal :=
  optProp (optIdx (optProp (metaValueOf p) "messages") 0) "timestamp"

/-- Reader: `value.statuses[0].timestamp` of a Meta payload. -/
def metaFirstStatusTs (p : JsVal) : JsVal :=
  optProp (optIdx (optProp (metaValueOf p) "statuses") 0) "timestamp"

/-- Reader: `data.messageTimestamp` of an Evolution payload. -/
def evoMessageTs (p : JsVal) : JsVal :=
  optProp (optProp p "data") "messageTimestamp"

/-- A normalization result with the retained `rawPayload` blanked out, for
stating which output fields later array elements can influence. -/
def eraseRaw : NormalizationResult → NormalizationResult
  | .success m => .success { m with rawPayload := .undefined }
  | r => r

/-- Builder: the `value` object of a Meta change. -/
def mkMetaValue (metadata contacts messages statuses : JsVal) : JsVal :=
  .obj [("messaging_product", .str "whatsapp"),
        ("metadata", metadata),
        ("contacts", contacts),
        ("messages", messages),
        ("statuses", statuses)]

/-- Builder: one Meta `entry` element. -/
def mkMetaEntry (entryId changes : JsVal) : JsVal :=
  .obj [("id", entryId), ("changes", changes)]

/-- Builder: one Meta change wrapping a `value`. -/
def mkMetaChange (value : JsVal) : JsVal :=
  .obj [("value", value), ("field", .str "messages")]

/-- Builder: a whole Meta webhook payload from its entry list. -/
def mkMetaPayload (entries : List JsVal) : JsVal :=
  .obj [("object", .str "whatsapp_business_account"), ("entry", .arr entries)]

/-- The claim-C10 pair: a Meta payload with one extra (second) message. -/
def metaTwoMsgsPayload : JsVal :=
  mkMetaPayload [mkMetaEntry (.str "E") (.arr [mkMetaChange (mkMetaValue
    (.obj [("display_phone_number", .str "5511999999999"), ("phone_number_id", .str "P")])
    (.arr [])
    (.arr [.obj [("from", .str "111"), ("id", .str "A"), ("timestamp", .str "1"),
                 ("type", .str "text"), ("text", .obj [("body", .str "first")])],
           .obj [("from", .str "222"), ("id", .str "B"), ("timestamp", .str "2"),
                 ("type", .str "text"), ("text", .obj [("body", .str "second")])]])
    (.arr []))])]

/-- The same payload with the second message removed. -/
def metaOneMsgPayload : JsVal :=
  mkMetaPayload [mkMetaEntry (.str "E") (.arr [mkMetaChange (mkMetaValue
    (.obj [("display_phone_number", .str "5511999999999"), ("phone_number_id", .str "P")])
    (.arr [])
    (.arr [.obj [("from", .str "111"), ("id", .str "A"), ("timestamp", .str "1"),
                 ("type", .str "text"), ("text", .obj [("body", .str "first")])]])
    (.arr []))])]

/-- Projection used to exhibit that two results differ: the `length` of the
`messages` array inside the retained `rawPayload`. -/
def rawMessageCount (r : NormalizationResult) : Option JsVal :=
  r.messageOf.map fun m =>
    propGet (optProp (metaValueOf m.rawPayload) "messages") "length"

/-- An Evolution-shaped payload missing the required key fields. -/
def evoMissingFieldsPayload : JsVal :=
  .obj [("event", .str "messages.upsert"), ("instance", .str "i"),
        ("data", .obj [("key", .obj [])])]

/-- A Z-API-shaped payload whose `momment` is the falsy number 0. -/
def zapiMissingFieldsPayload : JsVal :=
  .obj [("instanceId", .str "i"), ("messageId", .str "m"), ("phone", .str "5"),
        ("momment", .num (.int 0))]

/-- A Meta status-update payload (statuses path, no messages). -/
def metaStatusExamplePayload : JsVal :=
  .obj [("object", .str "whatsapp_business_account"),
        ("entry", .arr [.obj [("id", .str "E"), ("changes", .arr [.obj [("value", .obj
          [("metadata", .obj [("display_phone_number", .str "5511999999999"),
                              ("phone_number_id", .str "P")]),
           ("statuses", .arr [.obj [("id", .str "wamid.S"),
                                    ("status", .str "delivered"),
                                    ("timestamp", .str "1677234567"),
                                    ("recipient_id", .str "5511988888888")]])])]])]])]

/-- An Evolution payload whose `messageTimestamp` is already milliseconds. -/
def evoMillisPayload : JsVal :=
  .obj [("event", .str "messages.upsert"), ("instance", .str "i"),
        ("data", .obj
          [("key", .obj [("remoteJid", .str "5511988888888@s.whatsapp.net"),
                         ("fromMe", .bool false), ("id", .str "K")]),
           ("message", .obj [("conversation", .str "hi")]),
           ("messageType", .str "conversation"),
           ("messageTimestamp", .num (.int 1677234567000))]),
        ("destination", .str "5511999999999@s.whatsapp.net")]

/-- Builder: a Meta `value` object with no `messages` key at all. -/
def mkMetaValueNoMsgs (metadata contacts statuses : JsVal) : JsVal :=
  .obj [("messaging_product", .str "whatsapp"),
        ("metadata", metadata),
        ("contacts", contacts),
        ("statuses", statuses)]

/-! ## Shared lemmas -/

theorem generateId_ne_empty (now : Nat) (rand : String) :
    BaseWebhookAdapter.generateId now rand ≠ "" := by
  unfold BaseWebhookAdapter.generateId
  intro h
  have h2 := congrArg String.length h
  simp [String.length_append] at h2
  exact absurd h2.1.1.1 (by decide)

theorem jsGet_ok {v : JsVal} {k : String} {x : JsVal} (h : jsGet v k = .ok x) :
    optProp v k = x := by
  cases v <;> simp_all [jsGet, optProp]

theorem jsIdx_ok {v : JsVal} {i : Nat} {x : JsVal} (h : jsIdx v i = .ok x) :
    optIdx v i = x := by
  cases v <;> simp_all [jsIdx, optIdx]

theorem meta_normalize_success (now : Nat) (rand : String) (p : JsVal) (m : NormalizedMessage)
    (h : MetaAdapter.normalize now rand p = .success m) :
    MetaAdapter.extract now rand p = .ok (.success m) := by
  unfold MetaAdapter.normalize at h
  split at h <;> try (cases h)
  split at h <;> try (cases h)
  rcases hx : MetaAdapter.extract now rand p with e | r
  · rw [hx] at h
    simp at h
  · rw [hx] at h
    simp at h
    try rw [h]

theorem evo_normalize_success (now : Nat) (rand : String) (p : JsVal) (m : NormalizedMessage)
    (h : EvolutionAdapter.normalize now rand p = .success m) :
    EvolutionAdapter.extract now rand p = .ok (.success m) := by
  unfold EvolutionAdapter.normalize at h
  split at h <;> try (cases h)
  split at h <;> try (cases h)
  rcases hx : EvolutionAdapter.extract now rand p with e | r
  · rw [hx] at h
    simp at h
  · rw [hx] at h
    simp at h
    try rw [h]

theorem zapi_normalize_success (now : Nat) (rand : String) (p : JsVal) (m : NormalizedMessage)
    (h : ZApiAdapter.normalize now rand p = .success m) :
    ZApiAdapter.extract now rand p = .ok (.success m) := by
  unfold ZApiAdapter.normalize at h
  split at h <;> try (cases h)
  split at h <;> try (cases h)
  rcases hx : ZApiAdapter.extract now rand p with e | r
  · rw [hx] at h
    simp at h
  · rw [hx] at h
    simp at h
    try rw [h]

/-- Claim C5: on the Meta example payload, `normalize` succeeds with
provider `meta`, direction `inbound`, text content `Olá`, sender phone
`5511988888888` and timestamp `1677234567000`. -/
theorem c5_meta_example_normalization :
    (MetaAdapter.normalize 1700000000000 "k3x9q2p" metaExamplePayload).isSuccess = true ∧
    ((MetaAdapter.normalize 1700000000000 "k3x9q2p" metaExamplePayload).messageOf.map fun m => m.provider)
      = some "meta" ∧
    ((MetaAdapter.normalize 1700000000000 "k3x9q2p" metaExamplePayload).messageOf.map fun m => m.direction)
      = some "inbound" ∧
    ((MetaAdapter.normalize 1700000000000 "k3x9q2p" metaExamplePayload).messageOf.map fun m => m.content.type)
      = some "text" ∧
    ((MetaAdapter.normalize 1700000000000 "k3x9q2p" metaExamplePayload).messageOf.map fun m => m.content.text)
      = some (some (.str "Olá")) ∧
    ((MetaAdapter.normalize 1700000000000 "k3x9q2p" metaExamplePayload).messageOf.map fun m => m.fromContact.phoneNumber)
      = some "5511988888888" ∧
    ((MetaAdapter.normalize 1700000000000 "k3x9q2p" metaExamplePayload).messageOf.map fun m => m.timestamp)
      = some (.num (.int 1677234567000)) :=
  ⟨rfl, rfl, rfl, rfl, rfl, rfl, rfl⟩

/-- Claim C7: each adapter accepts its own canonical example payload and
both other adapters reject it. -/
theorem c7_mutual_exclusivity :
    MetaAdapter.canHandle metaExamplePayload = true ∧
    EvolutionAdapter.canHandle evolutionExamplePayload = true ∧
    ZApiAdapter.canHandle zapiExamplePayload = true ∧
    EvolutionAdapter.canHandle metaExamplePayload = false ∧
    ZApiAdapter.canHandle metaExamplePayload = false ∧
    MetaAdapter.canHandle evolutionExamplePayload = false ∧
    ZApiAdapter.canHandle evolutionExamplePayload = false ∧
    MetaAdapter.canHandle zapiExamplePayload = false ∧
    EvolutionAdapter.canHandle zapiExamplePayload = false :=
  ⟨rfl, rfl, rfl, rfl, rfl, rfl, rfl, rfl, rfl⟩

theorem findAdapter_of_all_false (adapters : List Adapter) (p : JsVal)
    (h : ∀ a ∈ adapters, a.canHandle p = .ok false) :
    AdapterRegistry.findAdapter adapters p = .ok none := by
  induction adapters with
  | nil => rfl
  | cons a rest ih =>
      have ha := h a (List.mem_cons_self a rest)
      have ih2 := ih fun x hx => h x (List.mem_cons_of_mem a hx)
      simp [AdapterRegistry.findAdapter, ha, ih2]

/-- Claim C4: the registry fails with `INVALID_PAYLOAD` on a null/undefined
payload, and with `UNKNOWN_PROVIDER` — detailing the registered providers
and the payload's top-level keys — when every registered adapter's
`canHandle` returns false. -/
theorem c4_registry_error_taxonomy :
    (∀ adapters, AdapterRegistry.normalize adapters .null =
      .ok (.failure .INVALID_PAYLOAD "Payload não pode ser null ou undefined" none)) ∧
    (∀ adapters, AdapterRegistry.normalize adapters .undefined =
      .ok (.failure .INVALID_PAYLOAD "Payload não pode ser null ou undefined" none)) ∧
    (∀ adapters p, AdapterRegistry.isAbsent p = false →
      (∀ a ∈ adapters, a.canHandle p = .ok false) →
      AdapterRegistry.normalize adapters p =
        .ok (.failure .UNKNOWN_PROVIDER "Nenhum adapter registrado pode processar este payload"
          (some (.obj
            [("registeredProviders", .arr ((AdapterRegistry.getRegisteredProviders adapters).map .str)),
             ("payloadType", .str p.typeofStr),
             ("payloadKeys", .arr ((AdapterRegistry.getPayloadKeys p).map .str))])))) := by
  refine ⟨fun _ => rfl, fun _ => rfl, fun adapters p hp hnone => ?_⟩
  have hfind := findAdapter_of_all_false adapters p hnone
  unfold AdapterRegistry.normalize
  simp [hp, hfind]

/-- Witness for C4 at the spec's `{foo:"bar"}` payload and the default
registration table. -/
theorem c4_witness :
    AdapterRegistry.normalize (defaultAdapters 1700000000000 "k3x9q2p") fooBarPayload =
      .ok (.failure .UNKNOWN_PROVIDER "Nenhum adapter registrado pode processar este payload"
        (some (.obj
          [("registeredProviders", .arr [.str "meta", .str "evolution", .str "z-api"]),
           ("payloadType", .str "object"),
           ("payloadKeys", .arr [.str "foo"])]))) :=
  c4_registry_error_taxonomy.2.2 (defaultAdapters 1700000000000 "k3x9q2p") fooBarPayload rfl
    (by intro a ha
        simp [defaultAdapters] at ha
        rcases ha with rfl | rfl | rfl <;> rfl)

/-- Claim C9 (amended): an exception thrown by the dispatched adapter's
`normalize` is caught and returned as `PROCESSING_ERROR` naming the
offending adapter; but an exception thrown by a registered adapter's
`canHandle` during detection is not caught — `findAdapter` runs outside
the try/catch, so that exception escapes `Registry.normalize` (see the
counterexample). -/
theorem c9_registry_wraps_adapter_exception :
    (∀ adapters (p : JsVal) (a : Adapter) (e : String),
      AdapterRegistry.isAbsent p = false →
      AdapterRegistry.findAdapter adapters p = .ok (some a) →
      a.normalizeFn p = .error e →
      AdapterRegistry.normalize adapters p =
        .ok (.failure .PROCESSING_ERROR ("Erro ao processar payload com adapter " ++ a.provider)
          (some (.str e)))) ∧
    (∀ adapters (p : JsVal) (e : String),
      AdapterRegistry.isAbsent p = false →
      AdapterRegistry.findAdapter adapters p = .error e →
      AdapterRegistry.normalize adapters p = .error e) := by
  constructor
  · intro adapters p a e hp hf he
    unfold AdapterRegistry.normalize
    simp [hp, hf, he]
  · intro adapters p e hp hf
    unfold AdapterRegistry.normalize
    simp [hp, hf]

/-- Counterexample for C9 as stated: with a registered custom adapter
whose `canHandle` throws, `Registry.normalize` on the non-null payload
`{foo:"bar"}` does not return a `NormalizationResult` — the detection
exception escapes uncaught. -/
theorem c9_counterexample :
    AdapterRegistry.isAbsent fooBarPayload = false ∧
    AdapterRegistry.normalize [detectThrowingAdapter] fooBarPayload =
      .error "detect-boom" :=
  ⟨rfl, rfl⟩

/-- Witness for C9: a registry holding one adapter that throws from
`normalize` (detection succeeds, dispatch throws, the registry wraps). -/
theorem c9_witness :
    AdapterRegistry.normalize [throwingAdapter] fooBarPayload =
      .ok (.failure .PROCESSING_ERROR "Erro ao processar payload com adapter bad"
        (some (.str "boom"))) :=
  c9_registry_wraps_adapter_exception.1 [throwingAdapter] fooBarPayload throwingAdapter "boom"
    rfl rfl rfl

/-- Claim C3: each built-in adapter's `normalize` follows the staged error
contract — `INVALID_PAYLOAD` when `canHandle` fails, `MISSING_REQUIRED_FIELD`
when `canHandle` holds but `validate` fails, and any exception thrown during
field extraction caught and returned as `PARSE_ERROR` with the cause as
detail rather than propagated. -/
theorem c3_staged_error_contract :
    (∀ now rand p, MetaAdapter.canHandle p = false →
      MetaAdapter.normalize now rand p =
        .failure .INVALID_PAYLOAD "Payload não é um webhook válido da Meta Cloud API" none) ∧
    (∀ now rand p, MetaAdapter.canHandle p = true → MetaAdapter.validate p = false →
      MetaAdapter.normalize now rand p =
        .failure .MISSING_REQUIRED_FIELD "Payload da Meta não contém mensagens ou status updates" none) ∧
    (∀ now rand p e, MetaAdapter.canHandle p = true → MetaAdapter.validate p = true →
      MetaAdapter.extract now rand p = .error e →
      MetaAdapter.normalize now rand p =
        .failure .PARSE_ERROR "Erro ao processar payload da Meta" (some (.str e))) ∧
    (∀ now rand p, EvolutionAdapter.canHandle p = false →
      EvolutionAdapter.normalize now rand p =
        .failure .INVALID_PAYLOAD "Payload não é um webhook válido da Evolution API" none) ∧
    (∀ now rand p, EvolutionAdapter.canHandle p = true → EvolutionAdapter.validate p = false →
      EvolutionAdapter.normalize now rand p =
        .failure .MISSING_REQUIRED_FIELD
          "Payload da Evolution não contém campos obrigatórios (remoteJid, id, messageTimestamp)" none) ∧
    (∀ now rand p e, EvolutionAdapter.canHandle p = true → EvolutionAdapter.validate p = true →
      EvolutionAdapter.extract now rand p = .error e →
      EvolutionAdapter.normalize now rand p =
        .failure .PARSE_ERROR "Erro ao processar payload da Evolution API" (some (.str e))) ∧
    (∀ now rand p, ZApiAdapter.canHandle p = false →
      ZApiAdapter.normalize now rand p =
        .failure .INVALID_PAYLOAD "Payload não é um webhook válido da Z-API" none) ∧
    (∀ now rand p, ZApiAdapter.canHandle p = true → ZApiAdapter.validate p = false →
      ZApiAdapter.normalize now rand p =
        .failure .MISSING_REQUIRED_FIELD "Payload da Z-API não contém campos obrigatórios" none) ∧
    (∀ now rand p e, ZApiAdapter.canHandle p = true → ZApiAdapter.validate p = true →
      ZApiAdapter.extract now rand p = .error e →
      ZApiAdapter.normalize now rand p =
        .failure .PARSE_ERROR "Erro ao processar payload da Z-API" (some (.str e))) := by
  refine ⟨fun now rand p h1 => ?_, fun now rand p h1 h2 => ?_, fun now rand p e h1 h2 h3 => ?_,
          fun now rand p h1 => ?_, fun now rand p h1 h2 => ?_, fun now rand p e h1 h2 h3 => ?_,
          fun now rand p h1 => ?_, fun now rand p h1 h2 => ?_, fun now rand p e h1 h2 h3 => ?_⟩
  all_goals first
    | (unfold MetaAdapter.normalize; simp_all)
    | (unfold EvolutionAdapter.normalize; simp_all)
    | (unfold ZApiAdapter.normalize; simp_all)

/-- Witness for C3: every stage of the contract exercised on a concrete
payload per adapter. -/
theorem c3_witness :
    MetaAdapter.normalize 1700000000000 "k3x9q2p" .null =
      .failure .INVALID_PAYLOAD "Payload não é um webhook válido da Meta Cloud API" none ∧
    MetaAdapter.normalize 1700000000000 "k3x9q2p" metaNoMessagesPayload =
      .failure .MISSING_REQUIRED_FIELD "Payload da Meta não contém mensagens ou status updates" none ∧
    MetaAdapter.normalize 1700000000000 "k3x9q2p" metaNoMetadataPayload =
      .failure .PARSE_ERROR "Erro ao processar payload da Meta"
        (some (.str "TypeError: cannot read properties of undefined (reading phone_number_id)")) ∧
    EvolutionAdapter.normalize 1700000000000 "k3x9q2p" .null =
      .failure .INVALID_PAYLOAD "Payload não é um webhook válido da Evolution API" none ∧
    EvolutionAdapter.normalize 1700000000000 "k3x9q2p" evoMissingFieldsPayload =
      .failure .MISSING_REQUIRED_FIELD
        "Payload da Evolution não contém campos obrigatórios (remoteJid, id, messageTimestamp)" none ∧
    EvolutionAdapter.normalize 1700000000000 "k3x9q2p" evoBadJidPayload =
      .failure .PARSE_ERROR "Erro ao processar payload da Evolution API"
        (some (.str "TypeError: phone.replace is not a function")) ∧
    ZApiAdapter.normalize 1700000000000 "k3x9q2p" .null =
      .failure .INVALID_PAYLOAD "Payload não é um webhook válido da Z-API" none ∧
    ZApiAdapter.normalize 1700000000000 "k3x9q2p" zapiMissingFieldsPayload =
      .failure .MISSING_REQUIRED_FIELD "Payload da Z-API não contém campos obrigatórios" none ∧
    ZApiAdapter.normalize 1700000000000 "k3x9q2p" zapiBadStatusPayload =
      .failure .PARSE_ERROR "Erro ao processar payload da Z-API"
        (some (.str "TypeError: zapiStatus.toUpperCase is not a function")) :=
  ⟨c3_staged_error_contract.1 1700000000000 "k3x9q2p" .null rfl,
   c3_staged_error_contract.2.1 1700000000000 "k3x9q2p" metaNoMessagesPayload rfl rfl,
   c3_staged_error_contract.2.2.1 1700000000000 "k3x9q2p" metaNoMetadataPayload
     "TypeError: cannot read properties of undefined (reading phone_number_id)" rfl rfl rfl,
   c3_staged_error_contract.2.2.2.1 1700000000000 "k3x9q2p" .null rfl,
   c3_staged_error_contract.2.2.2.2.1 1700000000000 "k3x9q2p" evoMissingFieldsPayload rfl rfl,
   c3_staged_error_contract.2.2.2.2.2.1 1700000000000 "k3x9q2p" evoBadJidPayload
     "TypeError: phone.replace is not a function" rfl rfl rfl,
   c3_staged_error_contract.2.2.2.2.2.2.1 1700000000000 "k3x9q2p" .null rfl,
   c3_staged_error_contract.2.2.2.2.2.2.2.1 1700000000000 "k3x9q2p" zapiMissingFieldsPayload rfl rfl,
   c3_staged_error_contract.2.2.2.2.2.2.2.2 1700000000000 "k3x9q2p" zapiBadStatusPayload
     "TypeError: zapiStatus.toUpperCase is not a function" rfl rfl rfl⟩

theorem meta_extract_success (now : Nat) (rand : String) (p : JsVal) (m : NormalizedMessage)
    (h : MetaAdapter.extract now rand p = .ok (.success m)) :
    m.id = BaseWebhookAdapter.generateId now rand ∧ m.provider = "meta" ∧
    (m.direction = "inbound" ∨ m.direction = "outbound") := by
  unfold MetaAdapter.extract at h
  simp only [andThen] at h
  iterate 30 (all_goals try (split at h <;> try (cases h)))
  all_goals exact ⟨rfl, rfl, by simp⟩

theorem evo_extract_success (now : Nat) (rand : String) (p : JsVal) (m : NormalizedMessage)
    (h : EvolutionAdapter.extract now rand p = .ok (.success m)) :
    m.id = BaseWebhookAdapter.generateId now rand ∧ m.provider = "evolution" ∧
    (m.direction = "inbound" ∨ m.direction = "outbound") := by
  unfold EvolutionAdapter.extract at h
  simp only [andThen] at h
  iterate 30 (all_goals try (split at h <;> try (cases h)))
  all_goals refine ⟨rfl, rfl, ?_⟩
  all_goals dsimp only
  all_goals split <;> simp

theorem zapi_extract_success (now : Nat) (rand : String) (p : JsVal) (m : NormalizedMessage)
    (h : ZApiAdapter.extract now rand p = .ok (.success m)) :
    m.id = BaseWebhookAdapter.generateId now rand ∧ m.provider = "z-api" ∧
    (m.direction = "inbound" ∨ m.direction = "outbound") := by
  unfold ZApiAdapter.extract at h
  simp only [andThen] at h
  iterate 30 (all_goals try (split at h <;> try (cases h)))
  all_goals refine ⟨rfl, rfl, ?_⟩
  all_goals dsimp only
  all_goals split <;> simp

/-- Claim C1 (amended): every successfully normalized message from the
three built-in adapters has a non-empty system-generated `id`, a provider
other than `unknown`, and an `inbound`/`outbound` direction.  (The original
claim's "non-empty externalId" and "timestamp > 0" conjuncts are refuted by
`c1_counterexample`.) -/
theorem c1_success_invariant :
    ∀ now rand p m,
      (MetaAdapter.normalize now rand p = .success m ∨
       EvolutionAdapter.normalize now rand p = .success m ∨
       ZApiAdapter.normalize now rand p = .success m) →
      m.id ≠ "" ∧ m.provider ≠ "unknown" ∧
      (m.direction = "inbound" ∨ m.direction = "outbound") := by
  intro now rand p m h
  rcases h with h | h | h
  · obtain ⟨h1, h2, h3⟩ := meta_extract_success now rand p m (meta_normalize_success now rand p m h)
    exact ⟨h1 ▸ generateId_ne_empty now rand, by rw [h2]; decide, h3⟩
  · obtain ⟨h1, h2, h3⟩ := evo_extract_success now rand p m (evo_normalize_success now rand p m h)
    exact ⟨h1 ▸ generateId_ne_empty now rand, by rw [h2]; decide, h3⟩
  · obtain ⟨h1, h2, h3⟩ := zapi_extract_success now rand p m (zapi_normalize_success now rand p m h)
    exact ⟨h1 ▸ generateId_ne_empty now rand, by rw [h2]; decide, h3⟩

/-- Counterexample for C1 as stated: a structurally valid Meta payload with
message id `""` and seconds value `"0"` normalizes successfully, yet its
`externalId` is empty and its `timestamp` is 0, violating two of the
claimed conjuncts. -/
theorem c1_counterexample :
    (MetaAdapter.normalize 1700000000000 "k3x9q2p" metaZeroTimestampPayload).isSuccess = true ∧
    ((MetaAdapter.normalize 1700000000000 "k3x9q2p" metaZeroTimestampPayload).messageOf.map
      fun m => m.externalId) = some (.str "") ∧
    ((MetaAdapter.normalize 1700000000000 "k3x9q2p" metaZeroTimestampPayload).messageOf.map
      fun m => m.timestamp) = some (.num (.int 0)) ∧
    c1InvariantCheck (MetaAdapter.normalize 1700000000000 "k3x9q2p" metaZeroTimestampPayload) = false :=
  ⟨rfl, rfl, rfl, rfl⟩

/-- Witness for C1 at the Meta example payload. -/
theorem c1_witness :
    match MetaAdapter.normalize 1700000000000 "k3x9q2p" metaExamplePayload with
    | .success m => m.id ≠ "" ∧ m.provider ≠ "unknown" ∧
        (m.direction = "inbound" ∨ m.direction = "outbound")
    | .failure _ _ _ => False :=
  c1_success_invariant 1700000000000 "k3x9q2p" metaExamplePayload _ (Or.inl rfl)

theorem meta_value_chain {p pentry entry echanges changes value : JsVal}
    (h1 : jsGet p "entry" = .ok pentry) (h2 : jsIdx pentry 0 = .ok entry)
    (h3 : jsGet entry "changes" = .ok echanges) (h4 : jsIdx echanges 0 = .ok changes)
    (h5 : jsGet changes "value" = .ok value) :
    metaValueOf p = value := by
  unfold metaValueOf
  rw [jsGet_ok h1, jsIdx_ok h2, jsGet_ok h3, jsIdx_ok h4, jsGet_ok h5]

theorem meta_uses_chain {p pentry entry echanges changes value messages : JsVal}
    (h1 : jsGet p "entry" = .ok pentry) (h2 : jsIdx pentry 0 = .ok entry)
    (h3 : jsGet entry "changes" = .ok echanges) (h4 : jsIdx echanges 0 = .ok changes)
    (h5 : jsGet changes "value" = .ok value) (h7 : jsGet value "messages" = .ok messages) :
    metaUsesMessages p = (messages.truthy && jsGtZero (propGet messages "length")) := by
  unfold metaUsesMessages
  rw [meta_value_chain h1 h2 h3 h4 h5, jsGet_ok h7]
  cases messages <;> simp [optProp, JsVal.truthy]

theorem meta_msg_ts_chain {p pentry entry echanges changes value messages msg msgTs : JsVal}
    (h1 : jsGet p "entry" = .ok pentry) (h2 : jsIdx pentry 0 = .ok entry)
    (h3 : jsGet entry "changes" = .ok echanges) (h4 : jsIdx echanges 0 = .ok changes)
    (h5 : jsGet changes "value" = .ok value) (h7 : jsGet value "messages" = .ok messages)
    (h8 : jsIdx messages 0 = .ok msg) (h9 : jsGet msg "timestamp" = .ok msgTs) :
    metaFirstMessageTs p = msgTs := by
  unfold metaFirstMessageTs
  rw [meta_value_chain h1 h2 h3 h4 h5, jsGet_ok h7, jsIdx_ok h8, jsGet_ok h9]

theorem meta_status_ts_chain {p pentry entry echanges changes value statuses st stTs : JsVal}
    (h1 : jsGet p "entry" = .ok pentry) (h2 : jsIdx pentry 0 = .ok entry)
    (h3 : jsGet entry "changes" = .ok echanges) (h4 : jsIdx echanges 0 = .ok changes)
    (h5 : jsGet changes "value" = .ok value) (h7 : jsGet value "statuses" = .ok statuses)
    (h8 : jsIdx statuses 0 = .ok st) (h9 : jsGet st "timestamp" = .ok stTs) :
    metaFirstStatusTs p = stTs := by
  unfold metaFirstStatusTs
  rw [meta_value_chain h1 h2 h3 h4 h5, jsGet_ok h7, jsIdx_ok h8, jsGet_ok h9]

theorem evo_ts_chain {p data mts : JsVal}
    (h1 : jsGet p "data" = .ok data) (h2 : jsGet data "messageTimestamp" = .ok mts) :
    evoMessageTs p = mts := by
  unfold evoMessageTs
  rw [jsGet_ok h1, jsGet_ok h2]

/-- Claim C2: on success the output timestamp is in milliseconds by the
per-provider rule — Meta multiplies the parsed seconds value by 1000 (on
both the messages and the statuses path), Z-API passes `momment` through
unchanged, and Evolution multiplies by 1000 exactly below the
10,000,000,000 threshold and passes through at or above it. -/
theorem c2_timestamp_normalization :
    (∀ now rand p m s n, MetaAdapter.normalize now rand p = .success m →
      metaUsesMessages p = true → metaFirstMessageTs p = .str s → parseIntJs (.str s) = .int n →
      m.timestamp = .num (.int (n * 1000))) ∧
    (∀ now rand p m s n, MetaAdapter.normalize now rand p = .success m →
      metaUsesMessages p = false → metaFirstStatusTs p = .str s → parseIntJs (.str s) = .int n →
      m.timestamp = .num (.int (n * 1000))) ∧
    (∀ now rand p m t, EvolutionAdapter.normalize now rand p = .success m →
      evoMessageTs p = .num (.int t) →
      (t < 10000000000 → m.timestamp = .num (.int (t * 1000))) ∧
      (10000000000 ≤ t → m.timestamp = .num (.int t))) ∧
    (∀ now rand p m, ZApiAdapter.normalize now rand p = .success m →
      m.timestamp = optProp p "momment") := by
  refine ⟨?_, ?_, ?_, ?_⟩
  · intro now rand p m s n hnorm husem hts hp
    have h := meta_normalize_success now rand p m hnorm
    unfold MetaAdapter.extract at h
    simp only [andThen] at h
    iterate 30 (all_goals try (split at h <;> try (cases h)))
    all_goals first
    | (have h1 := meta_msg_ts_chain (p := p) (by assumption) (by assumption) (by assumption)
         (by assumption) (by assumption) (by assumption) (by assumption) (by assumption)
       rw [h1.symm.trans hts, hp]
       simp [mulNum])
    | (have hu := meta_uses_chain (p := p) (by assumption) (by assumption) (by assumption)
         (by assumption) (by assumption) (by assumption)
       rw [hu] at husem
       exact absurd husem (by assumption))
  · intro now rand p m s n hnorm husem hts hp
    have h := meta_normalize_success now rand p m hnorm
    unfold MetaAdapter.extract at h
    simp only [andThen] at h
    iterate 30 (all_goals try (split at h <;> try (cases h)))
    all_goals first
    | (have h1 := meta_status_ts_chain (p := p) (by assumption) (by assumption) (by assumption)
         (by assumption) (by assumption) (by assumption) (by assumption) (by assumption)
       rw [h1.symm.trans hts, hp]
       simp [mulNum])
    | (have hu := meta_uses_chain (p := p) (by assumption) (by assumption) (by assumption)
         (by assumption) (by assumption) (by assumption)
       rw [hu] at husem
       exact absurd (husem.symm.trans (by assumption)) (by simp))
  · intro now rand p m t hnorm ht
    have h := evo_normalize_success now rand p m hnorm
    unfold EvolutionAdapter.extract at h
    simp only [andThen] at h
    iterate 30 (all_goals try (split at h <;> try (cases h)))
    have h1 := evo_ts_chain (p := p) (by assumption) (by assumption)
    rw [h1] at ht
    constructor
    · intro hlt
      dsimp only
      rw [ht]
      simp [EvolutionAdapter.normalizeTimestamp, toNumber, ltNum, mulNum, hlt]
    · intro hge
      dsimp only
      rw [ht]
      unfold EvolutionAdapter.normalizeTimestamp
      rw [if_neg]
      simp only [toNumber, ltNum, decide_eq_true_eq]
      omega
  · intro now rand p m hnorm
    have h := zapi_normalize_success now rand p m hnorm
    unfold ZApiAdapter.extract at h
    simp only [andThen] at h
    iterate 30 (all_goals try (split at h <;> try (cases h)))
    exact (jsGet_ok (by assumption)).symm

/-- Witness for C2: every timestamp rule exercised on a concrete payload. -/
theorem c2_witness :
    (match MetaAdapter.normalize 1700000000000 "k3x9q2p" metaExamplePayload with
     | .success m => m.timestamp = .num (.int (1677234567 * 1000))
     | .failure _ _ _ => False) ∧
    (match MetaAdapter.normalize 1700000000000 "k3x9q2p" metaStatusExamplePayload with
     | .success m => m.timestamp = .num (.int (1677234567 * 1000))
     | .failure _ _ _ => False) ∧
    (match EvolutionAdapter.normalize 1700000000000 "k3x9q2p" evolutionExamplePayload with
     | .success m => m.timestamp = .num (.int (1677234567 * 1000))
     | .failure _ _ _ => False) ∧
    (match EvolutionAdapter.normalize 1700000000000 "k3x9q2p" evoMillisPayload with
     | .success m => m.timestamp = .num (.int 1677234567000)
     | .failure _ _ _ => False) ∧
    (match ZApiAdapter.normalize 1700000000000 "k3x9q2p" zapiExamplePayload with
     | .success m => m.timestamp = optProp zapiExamplePayload "momment"
     | .failure _ _ _ => False) :=
  ⟨c2_timestamp_normalization.1 1700000000000 "k3x9q2p" metaExamplePayload _
     "1677234567" 1677234567 rfl rfl rfl rfl,
   c2_timestamp_normalization.2.1 1700000000000 "k3x9q2p" metaStatusExamplePayload _
     "1677234567" 1677234567 rfl rfl rfl rfl,
   (c2_timestamp_normalization.2.2.1 1700000000000 "k3x9q2p" evolutionExamplePayload _
     1677234567 rfl rfl).1 (by decide),
   (c2_timestamp_normalization.2.2.1 1700000000000 "k3x9q2p" evoMillisPayload _
     1677234567000 rfl rfl).2 (by decide),
   c2_timestamp_normalization.2.2.2 1700000000000 "k3x9q2p" zapiExamplePayload _ rfl⟩

theorem mk_cons_ne_empty (c : Char) (t : List Char) : String.mk (c :: t) ≠ "" := by
  intro h
  have h2 := congrArg String.data h
  exact absurd h2 (by simp)

theorem stripWaSuffix_of_not_mem {l : List Char} (h : '@' ∉ l) : stripWaSuffix l = l := by
  unfold stripWaSuffix
  split
  · next rest heq =>
      exfalso
      have hmem : '@' ∈ l.reverse.drop (l.reverse.takeWhile isSuffixChar).length := by
        rw [heq]; exact List.mem_cons_self _ _
      exact h (List.mem_reverse.mp (List.mem_of_mem_drop hmem))
  · rfl

theorem dropLeadingPlus_of_head {l : List Char} (h : l.head? ≠ some '+') :
    dropLeadingPlus l = l := by
  unfold dropLeadingPlus
  split
  · next rest => exact absurd rfl h
  · rfl

theorem mem_dropLeadingPlus {c : Char} {l : List Char} (h : c ∈ dropLeadingPlus l) : c ∈ l := by
  unfold dropLeadingPlus at h
  split at h
  · exact List.mem_cons_of_mem _ h
  · exact h

theorem keepDigits_mem {c : Char} {l : List Char} (h : c ∈ keepDigits l) : c.isDigit = true :=
  List.of_mem_filter h

theorem keepDigits_eq_self {l : List Char} (h : ∀ c ∈ l, c.isDigit = true) :
    keepDigits l = l :=
  List.filter_eq_self.mpr h

theorem mem_keepDigitsPlus {c : Char} {l : List Char} (h : c ∈ keepDigitsPlus l) :
    (c.isDigit || decide (c = '+')) = true := by
  unfold keepDigitsPlus at h
  simpa using List.of_mem_filter h

theorem keepDigitsPlus_eq_self {l : List Char}
    (h : ∀ c ∈ l, (c.isDigit || decide (c = '+')) = true) :
    keepDigitsPlus l = l := by
  unfold keepDigitsPlus
  exact List.filter_eq_self.mpr h

theorem digit_not_at {c : Char} (h : c.isDigit = true) : c ≠ '@' := by
  intro he
  subst he
  exact absurd h (by decide)

theorem digit_plus_not_at {c : Char} (h : (c.isDigit || decide (c = '+')) = true) : c ≠ '@' := by
  intro he
  subst he
  exact absurd h (by decide)

theorem helpers_apply_digits (l : List Char) (hall : ∀ c ∈ l, c.isDigit = true)
    (hcond : ¬(l.length = 11 ∧ l.take 2 = ['1', '1'])) :
    helpers.normalizePhoneNumber (String.mk l) = String.mk l := by
  rcases l with _ | ⟨c, t⟩
  · rfl
  · unfold helpers.normalizePhoneNumber
    rw [if_neg (mk_cons_ne_empty _ _)]
    have hdata : (String.mk (c :: t)).data = c :: t := rfl
    have hnoat : '@' ∉ c :: t := fun hmem => digit_not_at (hall _ hmem) rfl
    rw [hdata, stripWaSuffix_of_not_mem hnoat, keepDigits_eq_self hall,
        if_neg (by simp only [Bool.and_eq_true, decide_eq_true_eq]; exact hcond)]

theorem base_apply_canonical (l : List Char)
    (hall : ∀ c ∈ l, (c.isDigit || decide (c = '+')) = true)
    (hhead : l.head? ≠ some '+') :
    BaseWebhookAdapter.normalizePhoneNumber (String.mk l) = String.mk l := by
  rcases l with _ | ⟨c, t⟩
  · rfl
  · unfold BaseWebhookAdapter.normalizePhoneNumber
    rw [if_neg (mk_cons_ne_empty _ _)]
    have hdata : (String.mk (c :: t)).data = c :: t := rfl
    have hnoat : '@' ∉ c :: t := fun hmem => digit_plus_not_at (hall _ hmem) rfl
    rw [hdata, stripWaSuffix_of_not_mem hnoat, keepDigitsPlus_eq_self hall,
        dropLeadingPlus_of_head hhead]

theorem helpers_phone_idem (s : String) :
    helpers.normalizePhoneNumber (helpers.normalizePhoneNumber s) =
      helpers.normalizePhoneNumber s := by
  by_cases hs : s = ""
  · subst hs; rfl
  by_cases hc : (keepDigits (stripWaSuffix s.data)).length = 11 ∧
      (keepDigits (stripWaSuffix s.data)).take 2 = ['1', '1']
  · have hfs : helpers.normalizePhoneNumber s =
        String.mk ('5' :: '5' :: keepDigits (stripWaSuffix s.data)) := by
      unfold helpers.normalizePhoneNumber
      rw [if_neg hs, if_pos (by simp [hc.1, hc.2])]
    rw [hfs]
    apply helpers_apply_digits
    · intro c hcm
      simp only [List.mem_cons] at hcm
      rcases hcm with rfl | rfl | hcm
      · decide
      · decide
      · exact keepDigits_mem hcm
    · intro hcc
      have h13 := hcc.1
      have h11 := hc.1
      simp only [List.length_cons] at h13
      omega
  · have hfs : helpers.normalizePhoneNumber s =
        String.mk (keepDigits (stripWaSuffix s.data)) := by
      unfold helpers.normalizePhoneNumber
      rw [if_neg hs, if_neg (by simp only [Bool.and_eq_true, decide_eq_true_eq]; exact hc)]
    rw [hfs]
    apply helpers_apply_digits
    · intro c hcm
      exact keepDigits_mem hcm
    · exact hc

theorem base_phone_idem (s : String)
    (h : (BaseWebhookAdapter.normalizePhoneNumber s).data.head? ≠ some '+') :
    BaseWebhookAdapter.normalizePhoneNumber (BaseWebhookAdapter.normalizePhoneNumber s) =
      BaseWebhookAdapter.normalizePhoneNumber s := by
  by_cases hs : s = ""
  · subst hs; rfl
  have hfs : BaseWebhookAdapter.normalizePhoneNumber s =
      String.mk (dropLeadingPlus (keepDigitsPlus (stripWaSuffix s.data))) := by
    unfold BaseWebhookAdapter.normalizePhoneNumber
    rw [if_neg hs]
  rw [hfs] at h ⊢
  apply base_apply_canonical
  · intro c hcm
    exact mem_keepDigitsPlus (mem_dropLeadingPlus hcm)
  · exact h

/-- Claim C6 (amended): the exported helpers `normalizePhoneNumber` is
idempotent on every string; the shared `BaseWebhookAdapter.normalizePhoneNumber`
is idempotent on every string whose canonical form does not begin with `+`
(the regex `/^\+/` removes only one leading `+`, so an input with stacked
leading plus signs loses one more on re-application — see the
counterexample). -/
theorem c6_phone_idempotence :
    (∀ s, helpers.normalizePhoneNumber (helpers.normalizePhoneNumber s) =
      helpers.normalizePhoneNumber s) ∧
    (∀ s, (BaseWebhookAdapter.normalizePhoneNumber s).data.head? ≠ some '+' →
      BaseWebhookAdapter.normalizePhoneNumber (BaseWebhookAdapter.normalizePhoneNumber s) =
        BaseWebhookAdapter.normalizePhoneNumber s) :=
  ⟨helpers_phone_idem, base_phone_idem⟩

/-- Counterexample for C6 as stated: `BaseWebhookAdapter.normalizePhoneNumber`
maps `"++123"` to `"+123"` and `"+123"` to `"123"`, so it is not idempotent. -/
theorem c6_counterexample :
    BaseWebhookAdapter.normalizePhoneNumber "++123" = "+123" ∧
    BaseWebhookAdapter.normalizePhoneNumber (BaseWebhookAdapter.normalizePhoneNumber "++123") ≠
      BaseWebhookAdapter.normalizePhoneNumber "++123" := by
  refine ⟨by decide, by decide⟩

/-- Witness for C6 on a WhatsApp-suffixed number. -/
theorem c6_witness :
    BaseWebhookAdapter.normalizePhoneNumber
        (BaseWebhookAdapter.normalizePhoneNumber "5511988888888@s.whatsapp.net") =
      BaseWebhookAdapter.normalizePhoneNumber "5511988888888@s.whatsapp.net" :=
  c6_phone_idempotence.2 "5511988888888@s.whatsapp.net" (by decide)

theorem jsSEq_str_iff (a : JsVal) (c : String) : jsSEq a (.str c) = true ↔ a = .str c := by
  cases a with
  | num n => cases n <;> simp [jsSEq, beqVal]
  | str s => simp [jsSEq, beqVal, beq_iff_eq]
  | _ => simp [jsSEq, beqVal]

theorem typeof_string_iff (v : JsVal) : v.typeofStr = "string" ↔ ∃ s, v = .str s := by
  cases v <;> simp [JsVal.typeofStr]

theorem typeof_number_iff (v : JsVal) : v.typeofStr = "number" ↔ ∃ n, v = .num n := by
  cases v <;> simp [JsVal.typeofStr]

theorem isArrayJs_iff (v : JsVal) : v.isArrayJs = true ↔ ∃ xs, v = .arr xs := by
  cases v <;> simp [JsVal.isArrayJs]

theorem isObjectJs_iff (v : JsVal) : v.isObjectJs = true ↔ ∃ fields, v = .obj fields := by
  cases v <;> simp [JsVal.isObjectJs]

theorem arrLen_pos_iff (xs : List JsVal) :
    jsGtZero (propGet (.arr xs) "length") = true ↔ xs ≠ [] := by
  simp [propGet, jsGtZero, toNumber, ltNum, Int.natCast_pos, List.length_pos]

/-- Claim C8: `canHandle` of the three adapters is a total boolean
structural test: it accepts exactly the objects carrying the provider's
structural markers, and in particular returns `false` on `null`, arrays
and every other non-object value. -/
theorem c8_canhandle_total_structural :
    (∀ v : JsVal, MetaAdapter.canHandle v = true ↔
      ∃ fields entries, v = .obj fields ∧
        fieldLookup "object" fields = .str "whatsapp_business_account" ∧
        fieldLookup "entry" fields = .arr entries ∧ entries ≠ []) ∧
    (∀ v : JsVal, EvolutionAdapter.canHandle v = true ↔
      ∃ fields, v = .obj fields ∧
        (∃ s, fieldLookup "event" fields = .str s) ∧
        (∃ s, fieldLookup "instance" fields = .str s) ∧
        (∃ dfields, fieldLookup "data" fields = .obj dfields ∧
          ∃ kfields, fieldLookup "key" dfields = .obj kfields)) ∧
    (∀ v : JsVal, ZApiAdapter.canHandle v = true ↔
      ∃ fields, v = .obj fields ∧
        (∃ s, fieldLookup "instanceId" fields = .str s) ∧
        (∃ s, fieldLookup "messageId" fields = .str s) ∧
        (∃ s, fieldLookup "phone" fields = .str s) ∧
        (∃ n, fieldLookup "momment" fields = .num n)) ∧
    (∀ v : JsVal, v.isObjectJs = false →
      MetaAdapter.canHandle v = false ∧ EvolutionAdapter.canHandle v = false ∧
      ZApiAdapter.canHandle v = false) := by
  refine ⟨fun v => ?_, fun v => ?_, fun v => ?_, fun v hv => ?_⟩
  · constructor
    · intro h
      cases v <;> simp [MetaAdapter.canHandle, JsVal.isObjectJs] at h
      next fields =>
        obtain ⟨⟨h1, h2⟩, h3⟩ := h
        simp only [propGet] at h1 h2 h3
        obtain ⟨entries, hent⟩ := (isArrayJs_iff _).mp h2
        refine ⟨fields, entries, rfl, (jsSEq_str_iff _ _).mp h1, hent, ?_⟩
        rw [hent] at h3
        exact (arrLen_pos_iff entries).mp h3
    · rintro ⟨fields, entries, rfl, h1, h2, h3⟩
      simp [MetaAdapter.canHandle, JsVal.isObjectJs, JsVal.isArrayJs, propGet, h1, h2,
            jsSEq_str_iff]
      simp [jsGtZero, toNumber, ltNum, Int.natCast_pos, List.length_pos, h3]
  · constructor
    · intro h
      cases v <;> simp [EvolutionAdapter.canHandle, JsVal.isObjectJs] at h
      next fields =>
        obtain ⟨⟨⟨h1, h2⟩, h3⟩, h4⟩ := h
        simp only [propGet] at h1 h2 h3 h4
        obtain ⟨s1, hs1⟩ := (typeof_string_iff _).mp h1
        obtain ⟨s2, hs2⟩ := (typeof_string_iff _).mp h2
        obtain ⟨dfields, hd⟩ := (isObjectJs_iff _).mp h3
        rw [hd] at h4
        simp only [propGet] at h4
        obtain ⟨kfields, hk⟩ := (isObjectJs_iff _).mp h4
        exact ⟨fields, rfl, ⟨s1, hs1⟩, ⟨s2, hs2⟩, dfields, hd, kfields, hk⟩
    · rintro ⟨fields, rfl, ⟨s1, hs1⟩, ⟨s2, hs2⟩, dfields, hd, kfields, hk⟩
      simp [EvolutionAdapter.canHandle, JsVal.isObjectJs, propGet, hs1, hs2, hd, hk,
            JsVal.typeofStr]
  · constructor
    · intro h
      cases v <;> simp [ZApiAdapter.canHandle, JsVal.isObjectJs] at h
      next fields =>
        obtain ⟨⟨⟨h1, h2⟩, h3⟩, h4⟩ := h
        simp only [propGet] at h1 h2 h3 h4
        obtain ⟨s1, hs1⟩ := (typeof_string_iff _).mp h1
        obtain ⟨s2, hs2⟩ := (typeof_string_iff _).mp h2
        obtain ⟨s3, hs3⟩ := (typeof_string_iff _).mp h3
        obtain ⟨n, hn⟩ := (typeof_number_iff _).mp h4
        exact ⟨fields, rfl, ⟨s1, hs1⟩, ⟨s2, hs2⟩, ⟨s3, hs3⟩, n, hn⟩
    · rintro ⟨fields, rfl, ⟨s1, hs1⟩, ⟨s2, hs2⟩, ⟨s3, hs3⟩, n, hn⟩
      simp [ZApiAdapter.canHandle, JsVal.isObjectJs, propGet, hs1, hs2, hs3, hn,
            JsVal.typeofStr]
  · cases v <;> simp [MetaAdapter.canHandle, EvolutionAdapter.canHandle,
      ZApiAdapter.canHandle, JsVal.isObjectJs] at hv ⊢

/-- Witness for C8: the markers characterize acceptance of the Meta example
payload, and `null`, `undefined`, an array and the empty object are all
rejected by all three adapters. -/
theorem c8_witness :
    MetaAdapter.canHandle metaExamplePayload = true ∧
    MetaAdapter.canHandle .null = false ∧ EvolutionAdapter.canHandle .null = false ∧
    ZApiAdapter.canHandle .null = false ∧
    MetaAdapter.canHandle .undefined = false ∧ EvolutionAdapter.canHandle .undefined = false ∧
    ZApiAdapter.canHandle .undefined = false ∧
    MetaAdapter.canHandle (.arr [.str "x"]) = false ∧
    EvolutionAdapter.canHandle (.arr [.str "x"]) = false ∧
    ZApiAdapter.canHandle (.arr [.str "x"]) = false ∧
    MetaAdapter.canHandle (.obj []) = false ∧ EvolutionAdapter.canHandle (.obj []) = false ∧
    ZApiAdapter.canHandle (.obj []) = false :=
  ⟨(c8_canhandle_total_structural.1 metaExamplePayload).mpr
     ⟨_, _, rfl, rfl, rfl, by simp⟩,
   (c8_canhandle_total_structural.2.2.2 .null rfl).1,
   (c8_canhandle_total_structural.2.2.2 .null rfl).2.1,
   (c8_canhandle_total_structural.2.2.2 .null rfl).2.2,
   (c8_canhandle_total_structural.2.2.2 .undefined rfl).1,
   (c8_canhandle_total_structural.2.2.2 .undefined rfl).2.1,
   (c8_canhandle_total_structural.2.2.2 .undefined rfl).2.2,
   (c8_canhandle_total_structural.2.2.2 (.arr [.str "x"]) rfl).1,
   (c8_canhandle_total_structural.2.2.2 (.arr [.str "x"]) rfl).2.1,
   (c8_canhandle_total_structural.2.2.2 (.arr [.str "x"]) rfl).2.2,
   rfl, rfl, rfl⟩

theorem int_natCast_succ_ne (n : Nat) : ¬((n : Int) + 1 = 0) := by omega

theorem int_natCast_succ_pos (n : Nat) : 0 < (n : Int) + 1 := by omega

theorem jsGet_obj_eq (fields : List (String × JsVal)) (k : String) :
    jsGet (.obj fields) k = .ok (fieldLookup k fields) := rfl

theorem jsIdx_arr_eq (xs : List JsVal) (i : Nat) :
    jsIdx (.arr xs) i = .ok ((xs.get? i).getD .undefined) := rfl

/-- Claim C10 (amended): `MetaAdapter.normalize` reads only
`entry[0].changes[0].value` and the first `messages` element (or, when
`messages` is empty or absent, the first `statuses` element); later
entries, changes, messages and statuses have no effect on any output field
except the retained `rawPayload`, which keeps the whole original payload
(see the counterexample). -/
theorem c10_meta_first_element_only :
    (∀ now rand entryId md cts m0 mrest srest crest erest,
      eraseRaw (MetaAdapter.normalize now rand
        (mkMetaPayload (mkMetaEntry entryId (.arr (mkMetaChange
          (mkMetaValue md cts (.arr (m0 :: mrest)) (.arr srest)) :: crest)) :: erest))) =
      eraseRaw (MetaAdapter.normalize now rand
        (mkMetaPayload [mkMetaEntry entryId (.arr [mkMetaChange
          (mkMetaValue md cts (.arr [m0]) (.arr []))])]))) ∧
    (∀ now rand entryId md cts s0 srest crest erest,
      eraseRaw (MetaAdapter.normalize now rand
        (mkMetaPayload (mkMetaEntry entryId (.arr (mkMetaChange
          (mkMetaValue md cts (.arr []) (.arr (s0 :: srest))) :: crest)) :: erest))) =
      eraseRaw (MetaAdapter.normalize now rand
        (mkMetaPayload [mkMetaEntry entryId (.arr [mkMetaChange
          (mkMetaValue md cts (.arr []) (.arr [s0]))])]))) ∧
    (∀ now rand entryId md cts s0 srest crest erest,
      eraseRaw (MetaAdapter.normalize now rand
        (mkMetaPayload (mkMetaEntry entryId (.arr (mkMetaChange
          (mkMetaValueNoMsgs md cts (.arr (s0 :: srest))) :: crest)) :: erest))) =
      eraseRaw (MetaAdapter.normalize now rand
        (mkMetaPayload [mkMetaEntry entryId (.arr [mkMetaChange
          (mkMetaValueNoMsgs md cts (.arr [s0]))])]))) := by
  refine ⟨fun now rand entryId md cts m0 mrest srest crest erest => ?_,
          fun now rand entryId md cts s0 srest crest erest => ?_,
          fun now rand entryId md cts s0 srest crest erest => ?_⟩
  · simp [MetaAdapter.normalize, MetaAdapter.canHandle, MetaAdapter.validate,
        MetaAdapter.extract, mkMetaPayload, mkMetaEntry, mkMetaChange, mkMetaValue,
        JsVal.isObjectJs, JsVal.isArrayJs, propGet, fieldLookup, optProp, optIdx, idxGet,
        jsGet_obj_eq, jsIdx_arr_eq, andThen, jsOr, jsSEq, beqVal, JsVal.truthy, jsGtZero,
        toNumber, ltNum, List.length_cons, int_natCast_succ_ne, int_natCast_succ_pos]
    rcases jsGet m0 "id" with _ | xid
    · rfl
    dsimp only
    rcases jsGet md "phone_number_id" with _ | inst
    · rfl
    dsimp only
    rcases jsGet m0 "timestamp" with _ | ts
    · rfl
    dsimp only
    rcases jsGet m0 "from" with _ | mfrom
    · rfl
    dsimp only
    rcases BaseWebhookAdapter.normalizePhoneJs mfrom with _ | fromPhone
    · rfl
    dsimp only
    rcases jsGet md "display_phone_number" with _ | dpn
    · rfl
    dsimp only
    rcases BaseWebhookAdapter.normalizePhoneJs dpn with _ | toPhone
    · rfl
    dsimp only
    rcases MetaAdapter.extractContent m0 with _ | content
    · rfl
    rfl
  · simp [MetaAdapter.normalize, MetaAdapter.canHandle, MetaAdapter.validate,
        MetaAdapter.extract, mkMetaPayload, mkMetaEntry, mkMetaChange, mkMetaValue,
        JsVal.isObjectJs, JsVal.isArrayJs, propGet, fieldLookup, optProp, optIdx, idxGet,
        jsGet_obj_eq, jsIdx_arr_eq, andThen, jsOr, jsSEq, beqVal, JsVal.truthy, jsGtZero,
        toNumber, ltNum, List.length_cons, int_natCast_succ_ne, int_natCast_succ_pos]
    rcases jsGet s0 "id" with _ | xid
    · rfl
    dsimp only
    rcases jsGet md "phone_number_id" with _ | inst
    · rfl
    dsimp only
    rcases jsGet s0 "timestamp" with _ | ts
    · rfl
    dsimp only
    rcases jsGet s0 "status" with _ | st
    · rfl
    dsimp only
    rcases jsGet md "display_phone_number" with _ | dpn
    · rfl
    dsimp only
    rcases BaseWebhookAdapter.normalizePhoneJs dpn with _ | fromPhone
    · rfl
    dsimp only
    rcases jsGet s0 "recipient_id" with _ | recip
    · rfl
    dsimp only
    rcases BaseWebhookAdapter.normalizePhoneJs recip with _ | toPhone
    · rfl
    rfl
  · simp [MetaAdapter.normalize, MetaAdapter.canHandle, MetaAdapter.validate,
        MetaAdapter.extract, mkMetaPayload, mkMetaEntry, mkMetaChange, mkMetaValueNoMsgs,
        JsVal.isObjectJs, JsVal.isArrayJs, propGet, fieldLookup, optProp, optIdx, idxGet,
        jsGet_obj_eq, jsIdx_arr_eq, andThen, jsOr, jsSEq, beqVal, JsVal.truthy, jsGtZero,
        toNumber, ltNum, List.length_cons, int_natCast_succ_ne, int_natCast_succ_pos]
    rcases jsGet s0 "id" with _ | xid
    · rfl
    dsimp only
    rcases jsGet md "phone_number_id" with _ | inst
    · rfl
    dsimp only
    rcases jsGet s0 "timestamp" with _ | ts
    · rfl
    dsimp only
    rcases jsGet s0 "status" with _ | st
    · rfl
    dsimp only
    rcases jsGet md "display_phone_number" with _ | dpn
    · rfl
    dsimp only
    rcases BaseWebhookAdapter.normalizePhoneJs dpn with _ | fromPhone
    · rfl
    dsimp only
    rcases jsGet s0 "recipient_id" with _ | recip
    · rfl
    dsimp only
    rcases BaseWebhookAdapter.normalizePhoneJs recip with _ | toPhone
    · rfl
    rfl

/-- Counterexample for C10 as stated: appending a second message changes
the result, because the success message retains the full payload in
`rawPayload` — the two normalizations differ exactly there. -/
theorem c10_counterexample :
    rawMessageCount (MetaAdapter.normalize 1700000000000 "k3x9q2p" metaTwoMsgsPayload) =
      some (.num (.int 2)) ∧
    rawMessageCount (MetaAdapter.normalize 1700000000000 "k3x9q2p" metaOneMsgPayload) =
      some (.num (.int 1)) ∧
    MetaAdapter.normalize 1700000000000 "k3x9q2p" metaTwoMsgsPayload ≠
      MetaAdapter.normalize 1700000000000 "k3x9q2p" metaOneMsgPayload := by
  refine ⟨rfl, rfl, fun h => ?_⟩
  have h1 : rawMessageCount (MetaAdapter.normalize 1700000000000 "k3x9q2p" metaTwoMsgsPayload) =
      rawMessageCount (MetaAdapter.normalize 1700000000000 "k3x9q2p" metaOneMsgPayload) := by
    rw [h]
  rw [show rawMessageCount (MetaAdapter.normalize 1700000000000 "k3x9q2p" metaTwoMsgsPayload) =
      some (.num (.int 2)) from rfl,
    show rawMessageCount (MetaAdapter.normalize 1700000000000 "k3x9q2p" metaOneMsgPayload) =
      some (.num (.int 1)) from rfl] at h1
  simp at h1

/-- Witness for C10: the two claim-C10 payloads agree after `rawPayload`
is blanked. -/
theorem c10_witness :
    eraseRaw (MetaAdapter.normalize 1700000000000 "k3x9q2p" metaTwoMsgsPayload) =
      eraseRaw (MetaAdapter.normalize 1700000000000 "k3x9q2p" metaOneMsgPayload) := by
  have h := c10_meta_first_element_only.1 1700000000000 "k3x9q2p" (.str "E")
    (.obj [("display_phone_number", .str "5511999999999"), ("phone_number_id", .str "P")])
    (.arr [])
    (.obj [("from", .str "111"), ("id", .str "A"), ("timestamp", .str "1"),
           ("type", .str "text"), ("text", .obj [("body", .str "first")])])
    [.obj [("from", .str "222"), ("id", .str "B"), ("timestamp", .str "2"),
           ("type", .str "text"), ("text", .obj [("body", .str "second")])]]
    [] [] []
  exact h
